import Mathlib

/-!
Verification development for the strands-costguard cost-admission engine.

Monetary amounts (Python floats) are modelled as rationals, token and run
counts as naturals, Python dictionaries as insertion-ordered association
lists, and Python `datetime` values (naive UTC) as explicit calendar
records ordered by their microsecond timestamp.  Every definition mirrors
the corresponding function of the Python source; logging side effects are
surfaced as explicit lists of warning messages where a claim depends on
them, and metric emission (a write-only sink) is elided.
-/

set_option linter.unusedVariables false

abbrev Money : Type := Rat

/-! ### Insertion-ordered dictionaries (Python `dict` semantics) -/

/-- First-match lookup in an association list, as Python dict lookup. -/
def dictGet? {α : Type} (m : List (String × α)) (k : String) : Option α :=
  match m with
  | [] => none
  | kv :: rest => if kv.fst = k then some kv.snd else dictGet? rest k

/-- Python `d[k] = v`: replace the value at an existing key in place
(preserving position), otherwise append the binding at the end. -/
def dictInsert {α : Type} (m : List (String × α)) (k : String) (v : α) :
    List (String × α) :=
  match m with
  | [] => [(k, v)]
  | kv :: rest =>
      if kv.fst = k then (k, v) :: rest else kv :: dictInsert rest k v

/-- Python `d.pop(k, None)` (removal part): drop the binding for `k`. -/
def dictRemove {α : Type} (m : List (String × α)) (k : String) :
    List (String × α) :=
  match m with
  | [] => []
  | kv :: rest => if kv.fst = k then rest else kv :: dictRemove rest k

/-- Sum of the values of a cost dictionary (`sum(d.values())`). -/
def sumVals (m : List (String × Money)) : Money :=
  match m with
  | [] => 0
  | kv :: rest => kv.snd + sumVals rest

/-- Python `d.get(k, 0.0)`. -/
def dictGetD (m : List (String × Money)) (k : String) : Money :=
  (dictGet? m k).getD 0

/-- Python set `s.add(x)` on a set modelled as a duplicate-free list. -/
def setAdd (l : List String) (x : String) : List String :=
  if l.contains x then l else l ++ [x]

/-- Python set `s.discard(x)`. -/
def setDiscard (l : List String) (x : String) : List String :=
  l.filter (fun r => r ≠ x)

/-- Python `s.startswith(p)`, as a character-list prefix test. -/
def strIsPrefixOf (p s : String) : Bool :=
  p.data.isPrefixOf s.data

/-- Truthiness of an optional float (Python `if x:`): not None and nonzero. -/
def qTruthy (o : Option Money) : Bool :=
  match o with
  | none => false
  | some x => x ≠ 0

/-- Truthiness of an optional int (Python `if x:`): not None and nonzero. -/
def natTruthy (o : Option Nat) : Bool :=
  match o with
  | none => false
  | some n => n ≠ 0

/-! ### Naive UTC datetimes

Python `datetime` values are records of calendar fields; comparison,
`timedelta` arithmetic and `weekday()` are realised through the standard
civil-from-days / days-from-civil conversions. -/

structure DateTime where
  year : Nat
  month : Nat
  day : Nat
  hour : Nat
  minute : Nat
  second : Nat
  microsecond : Nat
  deriving Repr, DecidableEq

/-- Days since 1970-01-01 of a civil date (Hinnant's algorithm). -/
def daysFromCivil (y m d : Nat) : Int :=
  let yAdj : Int := if m ≤ 2 then (y : Int) - 1 else (y : Int)
  let era : Int := Int.ediv yAdj 400
  let yoe : Int := yAdj - era * 400
  let mp : Int := if m > 2 then (m : Int) - 3 else (m : Int) + 9
  let doy : Int := Int.ediv (153 * mp + 2) 5 + (d : Int) - 1
  let doe : Int := yoe * 365 + Int.ediv yoe 4 - Int.ediv yoe 100 + doy
  era * 146097 + doe - 719468

/-- Civil date from days since 1970-01-01 (inverse of `daysFromCivil`). -/
def civilFromDays (z0 : Int) : Nat × Nat × Nat :=
  let z : Int := z0 + 719468
  let era : Int := Int.ediv z 146097
  let doe : Int := z - era * 146097
  let yoe : Int :=
    Int.ediv (doe - Int.ediv doe 1460 + Int.ediv doe 36524 - Int.ediv doe 146097) 365
  let y : Int := yoe + era * 400
  let doy : Int := doe - (365 * yoe + Int.ediv yoe 4 - Int.ediv yoe 100)
  let mp : Int := Int.ediv (5 * doy + 2) 153
  let d : Int := doy - Int.ediv (153 * mp + 2) 5 + 1
  let m : Int := if mp < 10 then mp + 3 else mp - 9
  let yFinal : Int := if m ≤ 2 then y + 1 else y
  (yFinal.toNat, m.toNat, d.toNat)

def microPerSecond : Int := 1000000
def microPerMinute : Int := 60 * microPerSecond
def microPerHour : Int := 60 * microPerMinute
def microPerDay : Int := 24 * microPerHour

/-- Total microseconds since 1970-01-01T00:00:00. -/
def DateTime.toMicro (dt : DateTime) : Int :=
  daysFromCivil dt.year dt.month dt.day * microPerDay
    + (dt.hour : Int) * microPerHour + (dt.minute : Int) * microPerMinute
    + (dt.second : Int) * microPerSecond + (dt.microsecond : Int)

/-- Rebuild a datetime from a microsecond timestamp. -/
def DateTime.ofMicro (t : Int) : DateTime :=
  let dayCount : Int := Int.ediv t microPerDay
  let rem : Nat := (t - dayCount * microPerDay).toNat
  let ymd := civilFromDays dayCount
  { year := ymd.1, month := ymd.2.1, day := ymd.2.2,
    hour := rem / 3600000000,
    minute := rem / 60000000 % 60,
    second := rem / 1000000 % 60,
    microsecond := rem % 1000000 }

/-- Python `datetime` comparison (lexicographic on fields, equivalently by
timestamp for valid dates). -/
def DateTime.le (a b : DateTime) : Prop := a.toMicro ≤ b.toMicro

instance : LE DateTime := ⟨DateTime.le⟩

instance (a b : DateTime) : Decidable (a ≤ b) :=
  inferInstanceAs (Decidable (a.toMicro ≤ b.toMicro))

/-- Python `timedelta` addition. -/
def DateTime.addMicro (dt : DateTime) (n : Int) : DateTime :=
  DateTime.ofMicro (dt.toMicro + n)

/-- Python `weekday()`: Monday is 0; 1970-01-01 was a Thursday (3). -/
def DateTime.weekday (dt : DateTime) : Nat :=
  (Int.emod (daysFromCivil dt.year dt.month dt.day + 3) 7).toNat

/-! ### Budget period boundaries (`get_period_boundaries`) -/

inductive BudgetPeriod where
  | HOURLY
  | DAILY
  | WEEKLY
  | MONTHLY
  deriving Repr, DecidableEq

/-- Start and end times for a budget period around the reference time,
mirroring `get_period_boundaries` in `core/budget_tracker.py`. -/
def get_period_boundaries (period : BudgetPeriod) (now : DateTime) :
    DateTime × DateTime :=
  match period with
  | .HOURLY =>
      let start := { now with minute := 0, second := 0, microsecond := 0 }
      (start, start.addMicro microPerHour)
  | .DAILY =>
      let start := { now with hour := 0, minute := 0, second := 0, microsecond := 0 }
      (start, start.addMicro microPerDay)
  | .WEEKLY =>
      let shifted := now.addMicro (-(now.weekday : Int) * microPerDay)
      let start := { shifted with hour := 0, minute := 0, second := 0, microsecond := 0 }
      (start, start.addMicro (7 * microPerDay))
  | .MONTHLY =>
      let start := { now with day := 1, hour := 0, minute := 0, second := 0, microsecond := 0 }
      let stop :=
        if start.month = 12 then
          { start with year := start.year + 1, month := 1 }
        else
          { start with month := start.month + 1 }
      (start, stop)

/-! ### Pricing (`pricing/table.py`) -/

/-- Pricing configuration for a single model. -/
structure ModelPricing where
  model_name : String
  input_per_1k : Money
  output_per_1k : Money
  currency : String
  cached_input_per_1k : Option Money
  reasoning_per_1k : Option Money
  deriving Repr, DecidableEq

/-- Total cost of a model call (`ModelPricing.calculate_cost`).  Token
counts are naturals, so `prompt - cached` is Python's `max(0, prompt_tokens
- cached_tokens)`. -/
def ModelPricing.calculate_cost (p : ModelPricing)
    (prompt_tokens completion_tokens cached_tokens reasoning_tokens : Nat) : Money :=
  let standard_input_tokens : Nat := prompt_tokens - cached_tokens
  let input_cost : Money := ((standard_input_tokens : Money) / 1000) * p.input_per_1k
  let input_cost : Money :=
    if cached_tokens > 0 then
      match p.cached_input_per_1k with
      | some rate => input_cost + ((cached_tokens : Money) / 1000) * rate
      | none => input_cost
    else input_cost
  let output_cost : Money := ((completion_tokens : Money) / 1000) * p.output_per_1k
  let reasoning_cost : Money :=
    if reasoning_tokens > 0 then
      match p.reasoning_per_1k with
      | some rate => ((reasoning_tokens : Money) / 1000) * rate
      | none => 0
    else 0
  input_cost + output_cost + reasoning_cost

/-- Pre-flight estimate (`ModelPricing.estimate_cost`). -/
def ModelPricing.estimate_cost (p : ModelPricing) (estimated_tokens : Nat)
    (is_input : Bool) : Money :=
  let rate := if is_input then p.input_per_1k else p.output_per_1k
  ((estimated_tokens : Money) / 1000) * rate

/-- Pricing configuration for a tool. -/
structure ToolPricing where
  tool_name : String
  cost_per_call : Money
  cost_per_input_byte : Money
  cost_per_output_byte : Money
  currency : String
  deriving Repr, DecidableEq

/-- Cost of a tool call (`ToolPricing.calculate_cost`). -/
def ToolPricing.calculate_cost (p : ToolPricing)
    (input_size_bytes output_size_bytes : Nat) : Money :=
  p.cost_per_call + (input_size_bytes : Money) * p.cost_per_input_byte
    + (output_size_bytes : Money) * p.cost_per_output_byte

/-- Central pricing table; `models` keeps the insertion order of the dict. -/
structure PricingTable where
  currency : String
  models : List (String × ModelPricing)
  tools : List (String × ToolPricing)
  fallback_input_per_1k : Money
  fallback_output_per_1k : Money
  deriving Repr, DecidableEq

/-- One default entry (`DEFAULT_MODEL_PRICING` rows carry only the two base
rates). -/
def defaultEntry (name : String) (inp out : Money) : String × ModelPricing :=
  (name, { model_name := name, input_per_1k := inp, output_per_1k := out,
           currency := "USD", cached_input_per_1k := none, reasoning_per_1k := none })

/-- The `DEFAULT_MODEL_PRICING` table, in source order. -/
def DEFAULT_MODEL_PRICING : List (String × ModelPricing) :=
  [ defaultEntry "gpt-4" 30 60,
    defaultEntry "gpt-4-turbo" 10 30,
    defaultEntry "gpt-4-turbo-preview" 10 30,
    defaultEntry "gpt-4o" 2.5 10,
    defaultEntry "gpt-4o-mini" 0.15 0.6,
    defaultEntry "gpt-4.1" 5 15,
    defaultEntry "gpt-4.1-mini" 0.4 1.6,
    defaultEntry "gpt-3.5-turbo" 0.5 1.5,
    defaultEntry "gpt-3.5-turbo-16k" 3 4,
    defaultEntry "claude-3-opus" 15 75,
    defaultEntry "claude-3-sonnet" 3 15,
    defaultEntry "claude-3-haiku" 0.25 1.25,
    defaultEntry "claude-3.5-sonnet" 3 15,
    defaultEntry "claude-3.5-haiku" 0.8 4,
    defaultEntry "gemini-1.5-pro" 3.5 10.5,
    defaultEntry "gemini-1.5-flash" 0.075 0.3,
    defaultEntry "gemini-2.0-flash" 0.1 0.4,
    defaultEntry "llama-3.1-405b" 5 15,
    defaultEntry "llama-3.1-70b" 0.9 0.9,
    defaultEntry "llama-3.1-8b" 0.2 0.2 ]

/-- A `PricingTable()` built with no explicit models: `__post_init__` loads
the defaults. -/
def PricingTable.default : PricingTable :=
  { currency := "USD", models := DEFAULT_MODEL_PRICING, tools := [],
    fallback_input_per_1k := 1, fallback_output_per_1k := 3 }

/-- Resolve pricing for a model (`PricingTable.get_model_pricing`): exact
dict hit, else the first known model in insertion order that is a prefix of
the requested name, else fallback rates.  Total by construction. -/
def PricingTable.get_model_pricing (t : PricingTable) (model_name : String) :
    ModelPricing :=
  match dictGet? t.models model_name with
  | some p => p
  | none =>
      match t.models.find? (fun kv => strIsPrefixOf kv.fst model_name) with
      | some kv => kv.snd
      | none =>
          { model_name := model_name,
            input_per_1k := t.fallback_input_per_1k,
            output_per_1k := t.fallback_output_per_1k,
            currency := t.currency,
            cached_input_per_1k := none, reasoning_per_1k := none }

/-- Resolve pricing for a tool (`PricingTable.get_tool_pricing`):
zero-cost default when unconfigured. -/
def PricingTable.get_tool_pricing (t : PricingTable) (tool_name : String) :
    ToolPricing :=
  match dictGet? t.tools tool_name with
  | some p => p
  | none =>
      { tool_name := tool_name, cost_per_call := 0, cost_per_input_byte := 0,
        cost_per_output_byte := 0, currency := t.currency }

/-- `PricingTable.calculate_model_cost`. -/
def PricingTable.calculate_model_cost (t : PricingTable) (model_name : String)
    (prompt_tokens completion_tokens cached_tokens reasoning_tokens : Nat) : Money :=
  (t.get_model_pricing model_name).calculate_cost
    prompt_tokens completion_tokens cached_tokens reasoning_tokens

/-- `PricingTable.calculate_tool_cost`. -/
def PricingTable.calculate_tool_cost (t : PricingTable) (tool_name : String)
    (input_size_bytes output_size_bytes : Nat) : Money :=
  (t.get_tool_pricing tool_name).calculate_cost input_size_bytes output_size_bytes

/-- `PricingTable.estimate_model_cost`. -/
def PricingTable.estimate_model_cost (t : PricingTable) (model_name : String)
    (estimated_input_tokens estimated_output_tokens : Nat) : Money :=
  let pricing := t.get_model_pricing model_name
  pricing.estimate_cost estimated_input_tokens true
    + pricing.estimate_cost estimated_output_tokens false

/-! ### Run entities (`core/entities.py`) and usage records (`core/usage.py`) -/

/-- Immutable context of a run. -/
structure RunContext where
  tenant_id : String
  strand_id : String
  workflow_id : String
  run_id : String
  metadata : List (String × String)
  started_at : DateTime
  deriving Repr, DecidableEq

/-- Mutable per-run accounting state. -/
structure RunState where
  context : RunContext
  current_iteration : Nat
  total_cost : Money
  total_input_tokens : Nat
  total_output_tokens : Nat
  total_tool_calls : Nat
  model_costs : List (String × Money)
  tool_costs : List (String × Money)
  status : String
  ended_at : Option DateTime
  deriving Repr, DecidableEq

/-- A freshly constructed `RunState(context=context)`. -/
def RunState.init (context : RunContext) : RunState :=
  { context := context, current_iteration := 0, total_cost := 0,
    total_input_tokens := 0, total_output_tokens := 0, total_tool_calls := 0,
    model_costs := [], tool_costs := [], status := "running", ended_at := none }

/-- `RunState.add_model_cost`. -/
def RunState.add_model_cost (rs : RunState) (model_name : String) (cost : Money)
    (input_tokens output_tokens : Nat) : RunState :=
  { rs with
    total_cost := rs.total_cost + cost,
    total_input_tokens := rs.total_input_tokens + input_tokens,
    total_output_tokens := rs.total_output_tokens + output_tokens,
    model_costs := dictInsert rs.model_costs model_name
      (dictGetD rs.model_costs model_name + cost) }

/-- `RunState.add_tool_cost`. -/
def RunState.add_tool_cost (rs : RunState) (tool_name : String) (cost : Money) :
    RunState :=
  { rs with
    total_cost := rs.total_cost + cost,
    total_tool_calls := rs.total_tool_calls + 1,
    tool_costs := dictInsert rs.tool_costs tool_name
      (dictGetD rs.tool_costs tool_name + cost) }

/-- Aggregated usage for one budget period. -/
structure PeriodUsage where
  scope_type : String
  scope_id : String
  period_start : DateTime
  period_end : DateTime
  total_cost : Money
  total_runs : Nat
  concurrent_runs : Nat
  total_input_tokens : Nat
  total_output_tokens : Nat
  total_iterations : Nat
  total_tool_calls : Nat
  model_costs : List (String × Money)
  tool_costs : List (String × Money)
  deriving Repr, DecidableEq

/-- A fresh `PeriodUsage(scope_type, scope_id, period_start, period_end)`. -/
def PeriodUsage.init (scope_type scope_id : String) (period_start period_end : DateTime) :
    PeriodUsage :=
  { scope_type := scope_type, scope_id := scope_id,
    period_start := period_start, period_end := period_end,
    total_cost := 0, total_runs := 0, concurrent_runs := 0,
    total_input_tokens := 0, total_output_tokens := 0, total_iterations := 0,
    total_tool_calls := 0, model_costs := [], tool_costs := [] }

/-- Merge one per-model cost entry into a period cost dictionary. -/
def mergeCosts (acc : List (String × Money)) (entries : List (String × Money)) :
    List (String × Money) :=
  match entries with
  | [] => acc
  | kv :: rest => mergeCosts (dictInsert acc kv.fst (dictGetD acc kv.fst + kv.snd)) rest

/-- `PeriodUsage.add_run_cost`: fold a completed run's totals in. -/
def PeriodUsage.add_run_cost (u : PeriodUsage) (rs : RunState) : PeriodUsage :=
  { u with
    total_cost := u.total_cost + rs.total_cost,
    total_runs := u.total_runs + 1,
    total_input_tokens := u.total_input_tokens + rs.total_input_tokens,
    total_output_tokens := u.total_output_tokens + rs.total_output_tokens,
    total_iterations := u.total_iterations + rs.current_iteration,
    total_tool_calls := u.total_tool_calls + rs.total_tool_calls,
    model_costs := mergeCosts u.model_costs rs.model_costs,
    tool_costs := mergeCosts u.tool_costs rs.tool_costs }

/-- Usage metrics of a single model call. -/
structure ModelUsage where
  model_name : String
  prompt_tokens : Nat
  completion_tokens : Nat
  total_tokens : Nat
  cost : Money
  latency_ms : Option Money
  cached_tokens : Nat
  reasoning_tokens : Nat
  deriving Repr, DecidableEq

/-- Usage metrics of a single tool call. -/
structure ToolUsage where
  tool_name : String
  cost : Money
  latency_ms : Option Money
  input_size_bytes : Nat
  output_size_bytes : Nat
  success : Bool
  error_type : Option String
  metadata : List (String × String)
  deriving Repr, DecidableEq

/-- Aggregated usage of one loop iteration (only consumed by metrics). -/
structure IterationUsage where
  iteration_idx : Nat
  total_cost : Money
  total_input_tokens : Nat
  total_output_tokens : Nat
  deriving Repr, DecidableEq

/-! ### Budget policies (`policies/budget.py`) -/

inductive BudgetScope where
  | GLOBAL
  | TENANT
  | STRAND
  | WORKFLOW
  deriving Repr, DecidableEq

inductive ThresholdAction where
  | LOG_ONLY
  | DOWNGRADE_MODEL
  | LIMIT_CAPABILITIES
  | HALT_NEW_RUNS
  deriving Repr, DecidableEq

inductive HardLimitAction where
  | HALT_RUN
  | REJECT_NEW_RUNS
  deriving Repr, DecidableEq

/-- Match criteria of a budget (each pattern literal or the wildcard). -/
structure BudgetMatch where
  tenant_id : String
  strand_id : String
  workflow_id : String
  deriving Repr, DecidableEq

/-- `BudgetMatch.matches`. -/
def BudgetMatch.matches (m : BudgetMatch)
    (tenant_id strand_id workflow_id : String) : Bool :=
  if m.tenant_id ≠ "*" ∧ m.tenant_id ≠ tenant_id then false
  else if m.strand_id ≠ "*" ∧ m.strand_id ≠ strand_id then false
  else if m.workflow_id ≠ "*" ∧ m.workflow_id ≠ workflow_id then false
  else true

/-- `BudgetMatch.specificity_score`: tenant 1, strand 2, workflow 4. -/
def BudgetMatch.specificity_score (m : BudgetMatch) : Nat :=
  (if m.tenant_id ≠ "*" then 1 else 0)
    + (if m.strand_id ≠ "*" then 2 else 0)
    + (if m.workflow_id ≠ "*" then 4 else 0)

/-- Per-run constraints inside a budget. -/
structure BudgetConstraints where
  max_iterations_per_run : Option Nat
  max_tool_calls_per_run : Option Nat
  max_model_tokens_per_run : Option Nat
  max_cost_per_run : Option Money
  deriving Repr, DecidableEq

/-- The fully-defaulted `BudgetConstraints()`. -/
def BudgetConstraints.default : BudgetConstraints :=
  { max_iterations_per_run := none, max_tool_calls_per_run := none,
    max_model_tokens_per_run := none, max_cost_per_run := none }

/-- Complete budget specification. -/
structure BudgetSpec where
  id : String
  scope : BudgetScope
  match_ : BudgetMatch
  period : BudgetPeriod
  max_cost : Option Money
  soft_thresholds : List Money
  hard_limit : Bool
  on_soft_threshold_exceeded : ThresholdAction
  on_hard_limit_exceeded : HardLimitAction
  max_runs_per_period : Option Nat
  max_concurrent_runs : Option Nat
  constraints : BudgetConstraints
  enabled : Bool
  deriving Repr, DecidableEq

/-- `BudgetSpec.get_priority`: scope weight plus match specificity. -/
def BudgetSpec.get_priority (b : BudgetSpec) : Nat :=
  let scope_priority :=
    match b.scope with
    | .GLOBAL => 0
    | .TENANT => 10
    | .STRAND => 20
    | .WORKFLOW => 30
  scope_priority + b.match_.specificity_score

/-- `BudgetSpec.matches_context`. -/
def BudgetSpec.matches_context (b : BudgetSpec)
    (tenant_id strand_id workflow_id : String) : Bool :=
  b.enabled && b.match_.matches tenant_id strand_id workflow_id

/-- `BudgetSpec.get_current_threshold_action`: the configured soft action
when any soft threshold is at or below the utilization, else None. -/
def BudgetSpec.get_current_threshold_action (b : BudgetSpec)
    (utilization : Money) : Option ThresholdAction :=
  let exceeded_thresholds := b.soft_thresholds.filter (fun t => utilization ≥ t)
  if exceeded_thresholds ≠ [] then some b.on_soft_threshold_exceeded else none

/-- `BudgetSpec.is_hard_limit_exceeded`. -/
def BudgetSpec.is_hard_limit_exceeded (b : BudgetSpec) (utilization : Money) : Bool :=
  b.hard_limit && utilization ≥ 1

/-! ### Routing policies (`policies/routing.py`) -/

/-- Conditions that trigger model downgrade. -/
structure DowngradeTrigger where
  soft_threshold_exceeded : Bool
  remaining_budget_below : Option Money
  iteration_count_above : Option Nat
  latency_above_ms : Option Money
  deriving Repr, DecidableEq

/-- Latency leg of `should_downgrade`. -/
def DowngradeTrigger.checkLatency (t : DowngradeTrigger)
    (avg_latency_ms : Option Money) : Bool × String :=
  match t.latency_above_ms, avg_latency_ms with
  | some above, some avg =>
      if avg > above then (true, "average latency above threshold") else (false, "")
  | _, _ => (false, "")

/-- Iteration-count and latency legs of `should_downgrade`. -/
def DowngradeTrigger.checkIter (t : DowngradeTrigger)
    (iteration_count : Nat) (avg_latency_ms : Option Money) : Bool × String :=
  match t.iteration_count_above with
  | some above =>
      if iteration_count > above then (true, "iteration count above threshold")
      else t.checkLatency avg_latency_ms
  | none => t.checkLatency avg_latency_ms

/-- `DowngradeTrigger.should_downgrade` (first satisfied condition wins;
the numeric formatting of the reason strings is elided). -/
def DowngradeTrigger.should_downgrade (t : DowngradeTrigger)
    (soft_threshold_exceeded : Bool) (remaining_budget : Option Money)
    (iteration_count : Nat) (avg_latency_ms : Option Money) : Bool × String :=
  if t.soft_threshold_exceeded && soft_threshold_exceeded then
    (true, "soft budget threshold exceeded")
  else match t.remaining_budget_below, remaining_budget with
  | some below, some rem =>
      if rem < below then (true, "remaining budget below threshold")
      else t.checkIter iteration_count avg_latency_ms
  | _, _ => t.checkIter iteration_count avg_latency_ms

/-- Configuration of a specific model-call stage. -/
structure StageConfig where
  stage : String
  default_model : String
  fallback_model : Option String
  max_tokens : Option Nat
  temperature : Option Money
  trigger_downgrade_on : DowngradeTrigger
  deriving Repr, DecidableEq

/-- `StageConfig.get_effective_model`: fallback on a triggered downgrade
(only when a truthy fallback model is configured), else the default. -/
def StageConfig.get_effective_model (c : StageConfig)
    (soft_threshold_exceeded : Bool) (remaining_budget : Option Money)
    (iteration_count : Nat) (avg_latency_ms : Option Money) :
    String × Bool × String :=
  match c.fallback_model with
  | some fb =>
      if fb ≠ "" then
        let sd := c.trigger_downgrade_on.should_downgrade
          soft_threshold_exceeded remaining_budget iteration_count avg_latency_ms
        if sd.fst then (fb, true, sd.snd) else (c.default_model, false, "")
      else (c.default_model, false, "")
  | none => (c.default_model, false, "")

/-- Complete routing policy; `match_` is the raw match dictionary. -/
structure RoutingPolicy where
  id : String
  match_ : List (String × String)
  stages : List StageConfig
  default_model : String
  default_fallback_model : Option String
  enabled : Bool
  deriving Repr, DecidableEq

/-- `RoutingPolicy.matches_context`. -/
def RoutingPolicy.matches_context (p : RoutingPolicy)
    (tenant_id strand_id workflow_id : String) : Bool :=
  if ¬ p.enabled then false
  else
    let tenant_match := (dictGet? p.match_ "tenant_id").getD "*"
    let strand_match := (dictGet? p.match_ "strand_id").getD "*"
    let workflow_match := (dictGet? p.match_ "workflow_id").getD "*"
    if tenant_match ≠ "*" ∧ tenant_match ≠ tenant_id then false
    else if strand_match ≠ "*" ∧ strand_match ≠ strand_id then false
    else if workflow_match ≠ "*" ∧ workflow_match ≠ workflow_id then false
    else true

/-- `RoutingPolicy.get_stage_config`: first stage entry with that name. -/
def RoutingPolicy.get_stage_config (p : RoutingPolicy) (stage : String) :
    Option StageConfig :=
  p.stages.find? (fun c => c.stage = stage)

/-- `RoutingPolicy.get_model_for_stage`. -/
def RoutingPolicy.get_model_for_stage (p : RoutingPolicy) (stage : String)
    (soft_threshold_exceeded : Bool) (remaining_budget : Option Money)
    (iteration_count : Nat) (avg_latency_ms : Option Money) :
    String × Option Nat × Bool × String :=
  match p.get_stage_config stage with
  | some c =>
      let r := c.get_effective_model soft_threshold_exceeded remaining_budget
        iteration_count avg_latency_ms
      (r.fst, c.max_tokens, r.snd.fst, r.snd.snd)
  | none => (p.default_model, none, false, "")

/-- `RoutingPolicy.specificity_score`. -/
def RoutingPolicy.specificity_score (p : RoutingPolicy) : Nat :=
  (if (dictGet? p.match_ "tenant_id").getD "*" ≠ "*" then 1 else 0)
    + (if (dictGet? p.match_ "strand_id").getD "*" ≠ "*" then 2 else 0)
    + (if (dictGet? p.match_ "workflow_id").getD "*" ≠ "*" then 4 else 0)

/-! ### Budget tracker (`core/budget_tracker.py`)

The tracker is modelled without a durable backing store (`store=None`),
which is how `CostGuard.__post_init__` constructs it; all `if self.store`
branches of the source are therefore inert. -/

/-- Current state of one budget for one scope. -/
structure BudgetState where
  budget : BudgetSpec
  usage : PeriodUsage
  active_runs : List String
  deriving Repr, DecidableEq

/-- `BudgetState.utilization` (0 when `max_cost` is None or nonpositive). -/
def BudgetState.utilization (s : BudgetState) : Money :=
  match s.budget.max_cost with
  | none => 0
  | some mc => if mc ≤ 0 then 0 else s.usage.total_cost / mc

/-- `BudgetState.remaining_budget` (None when unlimited). -/
def BudgetState.remaining_budget (s : BudgetState) : Option Money :=
  match s.budget.max_cost with
  | none => none
  | some mc => some (max 0 (mc - s.usage.total_cost))

/-- `BudgetState.concurrent_runs`. -/
def BudgetState.concurrent_runs (s : BudgetState) : Nat :=
  s.active_runs.length

/-- `BudgetState.is_period_expired`. -/
def BudgetState.is_period_expired (s : BudgetState) (now : DateTime) : Bool :=
  decide (s.usage.period_end ≤ now)

/-- The `.value` string of a `BudgetScope` member. -/
def scopeTypeValue (scope : BudgetScope) : String :=
  match scope with
  | .GLOBAL => "global"
  | .TENANT => "tenant"
  | .STRAND => "strand"
  | .WORKFLOW => "workflow"

/-- `BudgetState.reset_for_new_period`: fresh accumulators and boundaries,
active runs kept (they may have started in the previous period). -/
def BudgetState.reset_for_new_period (s : BudgetState) (now : DateTime) :
    BudgetState :=
  let bounds := get_period_boundaries s.budget.period now
  let usage := PeriodUsage.init (scopeTypeValue s.budget.scope) s.budget.id
    bounds.fst bounds.snd
  { s with usage := usage }

/-- In-memory tracker state: scope-keyed budget states and run states. -/
structure BudgetTracker where
  budget_states : List (String × BudgetState)
  run_states : List (String × RunState)
  deriving Repr, DecidableEq

/-- The empty tracker `BudgetTracker()`. -/
def BudgetTracker.init : BudgetTracker :=
  { budget_states := [], run_states := [] }

/-- `BudgetTracker._get_scope_key`. -/
def BudgetTracker.get_scope_key (budget : BudgetSpec)
    (tenant_id strand_id workflow_id : String) : String :=
  match budget.scope with
  | .GLOBAL => "global:" ++ budget.id
  | .TENANT => "tenant:" ++ tenant_id ++ ":" ++ budget.id
  | .STRAND => "strand:" ++ tenant_id ++ ":" ++ strand_id ++ ":" ++ budget.id
  | .WORKFLOW =>
      "workflow:" ++ tenant_id ++ ":" ++ strand_id ++ ":" ++ workflow_id
        ++ ":" ++ budget.id

/-- `BudgetTracker.get_or_create_budget_state`: return the cached state
(resetting it first when its period expired), or create a fresh one for the
current period. -/
def BudgetTracker.get_or_create_budget_state (tr : BudgetTracker)
    (budget : BudgetSpec) (tenant_id strand_id workflow_id : String)
    (now : DateTime) : BudgetState × BudgetTracker :=
  let key := BudgetTracker.get_scope_key budget tenant_id strand_id workflow_id
  match dictGet? tr.budget_states key with
  | some state =>
      if state.is_period_expired now then
        let state' := state.reset_for_new_period now
        (state', { tr with budget_states := dictInsert tr.budget_states key state' })
      else (state, tr)
  | none =>
      let bounds := get_period_boundaries budget.period now
      let usage := PeriodUsage.init (scopeTypeValue budget.scope) budget.id
        bounds.fst bounds.snd
      let state : BudgetState := { budget := budget, usage := usage, active_runs := [] }
      (state, { tr with budget_states := dictInsert tr.budget_states key state })

/-- Body of the `register_run` loop for one budget. -/
def BudgetTracker.registerStep (run_state : RunState) (tr : BudgetTracker)
    (budget : BudgetSpec) : BudgetTracker :=
  let key := BudgetTracker.get_scope_key budget run_state.context.tenant_id
    run_state.context.strand_id run_state.context.workflow_id
  match dictGet? tr.budget_states key with
  | some st =>
      let runs := setAdd st.active_runs run_state.context.run_id
      let st' := { st with active_runs := runs,
                           usage := { st.usage with concurrent_runs := runs.length } }
      { tr with budget_states := dictInsert tr.budget_states key st' }
  | none => tr

/-- `BudgetTracker.register_run`: store the run state and add the run to
every cached matching scope's concurrent set. -/
def BudgetTracker.register_run (tr : BudgetTracker) (run_state : RunState)
    (budgets : List BudgetSpec) : BudgetTracker :=
  let tr := { tr with
    run_states := dictInsert tr.run_states run_state.context.run_id run_state }
  budgets.foldl (BudgetTracker.registerStep run_state) tr

/-- Body of the `unregister_run` loop for one budget. -/
def BudgetTracker.unregisterStep (run_state : RunState) (run_id : String)
    (tr : BudgetTracker) (budget : BudgetSpec) : BudgetTracker :=
  let key := BudgetTracker.get_scope_key budget run_state.context.tenant_id
    run_state.context.strand_id run_state.context.workflow_id
  match dictGet? tr.budget_states key with
  | some st =>
      let runs := setDiscard st.active_runs run_id
      let usage := { st.usage with concurrent_runs := runs.length }
      let usage := usage.add_run_cost run_state
      let st' := { st with active_runs := runs, usage := usage }
      { tr with budget_states := dictInsert tr.budget_states key st' }
  | none => tr

/-- `BudgetTracker.unregister_run`: pop the run state and fold its totals
into every cached matching scope's period usage. -/
def BudgetTracker.unregister_run (tr : BudgetTracker) (run_id : String)
    (budgets : List BudgetSpec) : Option RunState × BudgetTracker :=
  match dictGet? tr.run_states run_id with
  | none => (none, tr)
  | some run_state =>
      let tr := { tr with run_states := dictRemove tr.run_states run_id }
      let tr := budgets.foldl (BudgetTracker.unregisterStep run_state run_id) tr
      (some run_state, tr)

/-- `BudgetTracker.get_run_state`. -/
def BudgetTracker.get_run_state (tr : BudgetTracker) (run_id : String) :
    Option RunState :=
  dictGet? tr.run_states run_id

/-- Truthiness of an optional string (Python `if s:`). -/
def strTruthy (o : Option String) : Bool :=
  match o with
  | none => false
  | some s => s ≠ ""

/-- `BudgetTracker.update_run_cost`: accumulate into the run state only
(model usage only for a truthy model name with strictly positive cost; tool
usage for any truthy tool name).  Unknown runs are left untouched (the
source logs a warning). -/
def BudgetTracker.update_run_cost (tr : BudgetTracker) (run_id : String)
    (model_name : Option String) (model_cost : Money)
    (input_tokens output_tokens : Nat)
    (tool_name : Option String) (tool_cost : Money) : BudgetTracker :=
  match dictGet? tr.run_states run_id with
  | none => tr
  | some rs =>
      let rs :=
        if strTruthy model_name ∧ model_cost > 0 then
          rs.add_model_cost (model_name.getD "") model_cost input_tokens output_tokens
        else rs
      let rs :=
        if strTruthy tool_name then rs.add_tool_cost (tool_name.getD "") tool_cost
        else rs
      { tr with run_states := dictInsert tr.run_states run_id rs }

/-- One step of `check_budget_limits`: evaluate the three limit checks for
one budget (the `:.1%`-style numeric renderings in reasons are elided). -/
def BudgetTracker.checkStep (b : BudgetSpec) (state : BudgetState) :
    Option (BudgetSpec × BudgetState × String) :=
  if qTruthy b.max_cost ∧ state.utilization ≥ 1 ∧ b.hard_limit then
    some (b, state, "Budget " ++ b.id ++ " hard limit exceeded")
  else if natTruthy b.max_runs_per_period
      ∧ state.usage.total_runs ≥ (b.max_runs_per_period.getD 0) then
    some (b, state, "Budget " ++ b.id ++ " max runs exceeded")
  else if natTruthy b.max_concurrent_runs
      ∧ state.concurrent_runs ≥ (b.max_concurrent_runs.getD 0) then
    some (b, state, "Budget " ++ b.id ++ " max concurrent runs exceeded")
  else none

/-- `BudgetTracker.check_budget_limits`: all exceeded budgets, in budget
order.  Accessing each state may create it or roll its period over, so the
updated tracker is returned as well. -/
def BudgetTracker.check_budget_limits (tr : BudgetTracker)
    (tenant_id strand_id workflow_id : String) (budgets : List BudgetSpec)
    (now : DateTime) : List (BudgetSpec × BudgetState × String) × BudgetTracker :=
  match budgets with
  | [] => ([], tr)
  | b :: rest =>
      let sr := tr.get_or_create_budget_state b tenant_id strand_id workflow_id now
      let tail := sr.snd.check_budget_limits tenant_id strand_id workflow_id rest now
      match BudgetTracker.checkStep b sr.fst with
      | some entry => (entry :: tail.fst, tail.snd)
      | none => tail

/-! ### Decision objects (`core/decisions.py`) -/

inductive DecisionAction where
  | ALLOW
  | REJECT
  | DOWNGRADE
  | LIMIT
  | HALT
  | LOG_ONLY
  deriving Repr, DecidableEq

/-- Overrides a decision can carry. -/
structure ActionOverrides where
  model_name : Option String
  max_tokens_remaining : Option Nat
  force_terminate_run : Bool
  skip_tool_call : Bool
  fallback_response : Option String
  deriving Repr, DecidableEq

/-- The all-default `ActionOverrides()`. -/
def ActionOverrides.init : ActionOverrides :=
  { model_name := none, max_tokens_remaining := none,
    force_terminate_run := false, skip_tool_call := false,
    fallback_response := none }

/-- Admission decision. -/
structure AdmissionDecision where
  allowed : Bool
  reason : Option String
  action : DecisionAction
  remaining_budget : Option Money
  budget_utilization : Option Money
  warnings : List String
  deriving Repr, DecidableEq

/-- `AdmissionDecision.admit` (renamed `mkAdmit` in this embedding). -/
def AdmissionDecision.mkAdmit (remaining_budget budget_utilization : Option Money)
    (warnings : List String) : AdmissionDecision :=
  { allowed := true, reason := none, action := .ALLOW,
    remaining_budget := remaining_budget,
    budget_utilization := budget_utilization, warnings := warnings }

/-- `AdmissionDecision.reject`. -/
def AdmissionDecision.reject (reason : String) : AdmissionDecision :=
  { allowed := false, reason := some reason, action := .REJECT,
    remaining_budget := none, budget_utilization := none, warnings := [] }

/-- Iteration decision. -/
structure IterationDecision where
  allowed : Bool
  reason : Option String
  action : DecisionAction
  action_overrides : ActionOverrides
  remaining_iterations : Option Int
  remaining_budget : Option Money
  warnings : List String
  deriving Repr, DecidableEq

/-- `IterationDecision.proceed`. -/
def IterationDecision.proceed (remaining_iterations : Option Int)
    (warnings : List String) : IterationDecision :=
  { allowed := true, reason := none, action := .ALLOW,
    action_overrides := ActionOverrides.init,
    remaining_iterations := remaining_iterations, remaining_budget := none,
    warnings := warnings }

/-- `IterationDecision.halt`. -/
def IterationDecision.halt (reason : String) : IterationDecision :=
  { allowed := false, reason := some reason, action := .HALT,
    action_overrides := { ActionOverrides.init with force_terminate_run := true },
    remaining_iterations := none, remaining_budget := none, warnings := [] }

/-- Model-call decision. -/
structure ModelDecision where
  allowed : Bool
  reason : Option String
  action : DecisionAction
  action_overrides : ActionOverrides
  effective_model : Option String
  max_tokens : Option Int
  was_downgraded : Bool
  warnings : List String
  deriving Repr, DecidableEq

/-- `ModelDecision.allow`. -/
def ModelDecision.allow (effective_model : String) (max_tokens : Option Int)
    (warnings : List String) : ModelDecision :=
  { allowed := true, reason := none, action := .ALLOW,
    action_overrides := ActionOverrides.init,
    effective_model := some effective_model, max_tokens := max_tokens,
    was_downgraded := false, warnings := warnings }

/-- `ModelDecision.downgrade` (its warnings list is rebuilt from scratch). -/
def ModelDecision.downgrade (original_model fallback_model reason : String)
    (max_tokens : Option Int) : ModelDecision :=
  { allowed := true, reason := some reason, action := .DOWNGRADE,
    action_overrides := { ActionOverrides.init with model_name := some fallback_model },
    effective_model := some fallback_model, max_tokens := max_tokens,
    was_downgraded := true,
    warnings := ["Downgraded from " ++ original_model ++ " to "
      ++ fallback_model ++ ": " ++ reason] }

/-- `ModelDecision.reject`. -/
def ModelDecision.reject (reason : String) : ModelDecision :=
  { allowed := false, reason := some reason, action := .REJECT,
    action_overrides := ActionOverrides.init, effective_model := none,
    max_tokens := none, was_downgraded := false, warnings := [] }

/-- Tool-call decision. -/
structure ToolDecision where
  allowed : Bool
  reason : Option String
  action : DecisionAction
  action_overrides : ActionOverrides
  remaining_tool_calls : Option Int
  warnings : List String
  deriving Repr, DecidableEq

/-- `ToolDecision.allow`. -/
def ToolDecision.allow (remaining_tool_calls : Option Int)
    (warnings : List String) : ToolDecision :=
  { allowed := true, reason := none, action := .ALLOW,
    action_overrides := ActionOverrides.init,
    remaining_tool_calls := remaining_tool_calls, warnings := warnings }

/-- `ToolDecision.reject`. -/
def ToolDecision.reject (reason : String) : ToolDecision :=
  { allowed := false, reason := some reason, action := .REJECT,
    action_overrides := { ActionOverrides.init with skip_tool_call := true },
    remaining_tool_calls := none, warnings := [] }

/-! ### Policy store (`policies/store.py`)

The store converts and sorts the loaded budget documents once on refresh;
Python's `list.sort(key=..., reverse=True)` is a stable descending sort,
realised here by a stable insertion sort.  Timer-driven re-refresh
(`_maybe_refresh`) re-runs the same computation and is elided. -/

/-- Stable descending insertion: skip elements with strictly larger key,
place before the first one whose key is not larger. -/
def insertDescBy {α : Type} (key : α → Nat) (x : α) : List α → List α
  | [] => [x]
  | y :: ys => if key x < key y then y :: insertDescBy key x ys else x :: y :: ys

/-- Stable descending sort by key: equal keys keep their input order. -/
def sortDescBy {α : Type} (key : α → Nat) : List α → List α
  | [] => []
  | x :: xs => insertDescBy key x (sortDescBy key xs)

/-- Loaded policy snapshot: budgets and routing policies as sorted by
`PolicyStore.refresh`. -/
structure PolicyStore where
  budgets : List BudgetSpec
  routing_policies : List RoutingPolicy
  deriving Repr, DecidableEq

/-- `PolicyStore.refresh` on loaded documents: sort budgets by descending
priority and routing policies by descending specificity, both stably. -/
def PolicyStore.refresh (budget_data : List BudgetSpec)
    (routing_data : List RoutingPolicy) : PolicyStore :=
  { budgets := sortDescBy BudgetSpec.get_priority budget_data,
    routing_policies := sortDescBy RoutingPolicy.specificity_score routing_data }

/-- `PolicyStore.get_budgets_for_context`: the sorted budgets filtered to
those matching the context. -/
def PolicyStore.get_budgets_for_context (s : PolicyStore)
    (tenant_id strand_id workflow_id : String) : List BudgetSpec :=
  s.budgets.filter (fun b => b.matches_context tenant_id strand_id workflow_id)

/-- `PolicyStore.get_routing_policy`: the first (most specific) matching
routing policy. -/
def PolicyStore.get_routing_policy (s : PolicyStore)
    (tenant_id strand_id workflow_id : String) : Option RoutingPolicy :=
  s.routing_policies.find? (fun p => p.matches_context tenant_id strand_id workflow_id)

/-! ### Lifecycle engine (`core/cost_guard.py`)

Hooks are state transformers over the guard; each `before_*` hook also
returns the list of warning messages it logs (`logger.warning` calls),
since one claim is about that side effect.  `datetime.utcnow()` is passed
in explicitly as `now`. -/

/-- The CostGuard runtime: configuration switches, the loaded policy
snapshot, the pricing table, the tracker, and the per-run budget cache. -/
structure CostGuard where
  enable_budget_enforcement : Bool
  enable_routing : Bool
  default_max_iterations_per_run : Nat
  default_max_tool_calls_per_run : Nat
  policy_store : PolicyStore
  pricing_table : PricingTable
  budget_tracker : BudgetTracker
  run_budgets : List (String × List BudgetSpec)
  deriving Repr, DecidableEq

/-- Accumulator of the remaining-budget / utilization scan in
`on_run_start`. -/
structure AdmitScan where
  tracker : BudgetTracker
  remaining : Option Money
  utilization : Option Money
  warnings : List String

/-- One step of the `on_run_start` scan over applicable budgets: Python's
`if remaining is None or (state.remaining_budget and state.remaining_budget
< remaining)` updates both `remaining` and `utilization` together, and a
warning is appended for any non-`LOG_ONLY` threshold action. -/
def CostGuard.admitScanStep (tenant_id strand_id workflow_id : String)
    (now : DateTime) (acc : AdmitScan) (budget : BudgetSpec) : AdmitScan :=
  let sr := acc.tracker.get_or_create_budget_state budget tenant_id strand_id
    workflow_id now
  let state := sr.fst
  let acc := { acc with tracker := sr.snd }
  let acc :=
    if qTruthy budget.max_cost then
      let update : Bool :=
        match acc.remaining with
        | none => true
        | some rem =>
            match state.remaining_budget with
            | none => false
            | some rb => rb ≠ 0 ∧ rb < rem
      if update then
        { acc with remaining := state.remaining_budget,
                   utilization := some state.utilization }
      else acc
    else acc
  match budget.get_current_threshold_action state.utilization with
  | some act =>
      if act ≠ ThresholdAction.LOG_ONLY then
        { acc with warnings := acc.warnings
            ++ ["Budget " ++ budget.id ++ " at utilization"] }
      else acc
  | none => acc

/-- `CostGuard.on_run_start`: resolve budgets, register immediately when
enforcement is off, otherwise reject on the first exceeded budget with a
`REJECT_NEW_RUNS` action, else register and compute the admission fields. -/
def CostGuard.on_run_start (g : CostGuard)
    (tenant_id strand_id workflow_id run_id : String)
    (metadata : List (String × String)) (now : DateTime) :
    AdmissionDecision × CostGuard :=
  let context : RunContext :=
    { tenant_id := tenant_id, strand_id := strand_id, workflow_id := workflow_id,
      run_id := run_id, metadata := metadata, started_at := now }
  let budgets := g.policy_store.get_budgets_for_context tenant_id strand_id
    workflow_id
  let g := { g with run_budgets := dictInsert g.run_budgets run_id budgets }
  if ¬ g.enable_budget_enforcement then
    let run_state := RunState.init context
    (AdmissionDecision.mkAdmit none none [],
     { g with budget_tracker := g.budget_tracker.register_run run_state budgets })
  else
    let cr := g.budget_tracker.check_budget_limits tenant_id strand_id
      workflow_id budgets now
    let g := { g with budget_tracker := cr.snd }
    match cr.fst.find?
        (fun e => e.fst.on_hard_limit_exceeded = HardLimitAction.REJECT_NEW_RUNS) with
    | some e => (AdmissionDecision.reject e.snd.snd, g)
    | none =>
        let run_state := RunState.init context
        let g := { g with
          budget_tracker := g.budget_tracker.register_run run_state budgets }
        let scan := budgets.foldl
          (CostGuard.admitScanStep tenant_id strand_id workflow_id now)
          { tracker := g.budget_tracker, remaining := none, utilization := none,
            warnings := [] }
        let g := { g with budget_tracker := scan.tracker }
        (AdmissionDecision.mkAdmit scan.remaining scan.utilization scan.warnings, g)

/-- `CostGuard.on_run_end`: drop the per-run budget cache entry and
unregister the run (committing its totals); the popped run state only
feeds metrics afterwards. -/
def CostGuard.on_run_end (g : CostGuard) (run_id status : String) : CostGuard :=
  let budgets := (dictGet? g.run_budgets run_id).getD []
  let g := { g with run_budgets := dictRemove g.run_budgets run_id }
  let ur := g.budget_tracker.unregister_run run_id budgets
  { g with budget_tracker := ur.snd }

/-- Python `x or default` on an optional count (`None` and `0` both fall
back). -/
def orDefaultNat (o : Option Nat) (d : Nat) : Nat :=
  match o with
  | some n => if n ≠ 0 then n else d
  | none => d

/-- Enforcement leg of `before_iteration`: walk the budgets, halting at the
first `HALT_RUN` budget whose hard limit is exceeded, collecting threshold
warnings otherwise. -/
def CostGuard.iterEnforceLoop (tenant_id strand_id workflow_id : String)
    (now : DateTime) (tr : BudgetTracker) (warnings : List String) :
    List BudgetSpec → Sum (String × BudgetTracker) (BudgetTracker × List String)
  | [] => Sum.inr (tr, warnings)
  | b :: rest =>
      let sr := tr.get_or_create_budget_state b tenant_id strand_id workflow_id now
      let state := sr.fst
      let tr := sr.snd
      if b.is_hard_limit_exceeded state.utilization
          ∧ b.on_hard_limit_exceeded = HardLimitAction.HALT_RUN then
        Sum.inl ("Budget " ++ b.id ++ " hard limit exceeded during run", tr)
      else
        let warnings :=
          match b.get_current_threshold_action state.utilization with
          | some _ => warnings ++ ["Budget " ++ b.id ++ " at utilization"]
          | none => warnings
        CostGuard.iterEnforceLoop tenant_id strand_id workflow_id now tr
          warnings rest

/-- `CostGuard.before_iteration`.  Unknown runs get a permissive decision
plus a logged warning; otherwise the constraint cap (None falls back to the
default, `0` does not), then hard limits under enforcement, then the
minimum remaining iterations (`or`-style default here). -/
def CostGuard.before_iteration (g : CostGuard) (run_id : String)
    (iteration_idx : Nat) (now : DateTime) :
    IterationDecision × CostGuard × List String :=
  match g.budget_tracker.get_run_state run_id with
  | none =>
      (IterationDecision.proceed none [], g,
       ["before_iteration called for unknown run: " ++ run_id])
  | some run_state =>
      let budgets := (dictGet? g.run_budgets run_id).getD []
      match budgets.find? (fun b =>
          iteration_idx ≥ (b.constraints.max_iterations_per_run).getD
            g.default_max_iterations_per_run) with
      | some _ => (IterationDecision.halt "Max iterations exceeded", g, [])
      | none =>
          let enforce :=
            if g.enable_budget_enforcement then
              CostGuard.iterEnforceLoop run_state.context.tenant_id
                run_state.context.strand_id run_state.context.workflow_id now
                g.budget_tracker [] budgets
            else Sum.inr (g.budget_tracker, [])
          match enforce with
          | Sum.inl halt =>
              (IterationDecision.halt halt.fst,
               { g with budget_tracker := halt.snd }, [])
          | Sum.inr ok =>
              let g := { g with budget_tracker := ok.fst }
              let remaining : Option Int := budgets.foldl (fun rem b =>
                let max_iter := orDefaultNat b.constraints.max_iterations_per_run
                  g.default_max_iterations_per_run
                let budget_remaining : Int := (max_iter : Int) - (iteration_idx : Int)
                match rem with
                | none => some budget_remaining
                | some r =>
                    if budget_remaining < r then some budget_remaining else some r)
                none
              (IterationDecision.proceed remaining ok.snd, g, [])

/-- `CostGuard.after_iteration`: advance `current_iteration` past the
completed index (metrics elided). -/
def CostGuard.after_iteration (g : CostGuard) (run_id : String)
    (iteration_idx : Nat) (usage : IterationUsage) : CostGuard :=
  match g.budget_tracker.get_run_state run_id with
  | some rs =>
      { g with budget_tracker := { g.budget_tracker with
          run_states := dictInsert g.budget_tracker.run_states run_id
            { rs with current_iteration := iteration_idx + 1 } } }
  | none => g

/-- Accumulator of the routing scan in `before_model_call`. -/
structure RouteScan where
  tracker : BudgetTracker
  soft_threshold_exceeded : Bool
  remaining_budget : Option Money

/-- One step of the routing scan: a budget whose threshold action is
`DOWNGRADE_MODEL` marks the soft flag; `remaining_budget` takes the true
minimum of the non-None per-budget remainders. -/
def CostGuard.routeScanStep (tenant_id strand_id workflow_id : String)
    (now : DateTime) (acc : RouteScan) (budget : BudgetSpec) : RouteScan :=
  let sr := acc.tracker.get_or_create_budget_state budget tenant_id strand_id
    workflow_id now
  let state := sr.fst
  let ste := acc.soft_threshold_exceeded
    || decide (budget.get_current_threshold_action state.utilization
        = some ThresholdAction.DOWNGRADE_MODEL)
  let rem :=
    match state.remaining_budget with
    | some rb =>
        match acc.remaining_budget with
        | none => some rb
        | some r => if rb < r then some rb else some r
    | none => acc.remaining_budget
  { tracker := sr.snd, soft_threshold_exceeded := ste, remaining_budget := rem }

/-- Token-limit leg of `before_model_call`: reject at the first budget
whose per-run token cap is already exhausted, otherwise tighten
`max_tokens` to the smallest remaining allowance. -/
def CostGuard.tokenLimitLoop (run_state : RunState) :
    List BudgetSpec → Option Int → Sum String (Option Int)
  | [], mt => Sum.inr mt
  | b :: rest, mt =>
      if natTruthy b.constraints.max_model_tokens_per_run then
        let cap := (b.constraints.max_model_tokens_per_run).getD 0
        let remaining_tokens : Int := (cap : Int)
          - (run_state.total_input_tokens : Int)
          - (run_state.total_output_tokens : Int)
        if remaining_tokens ≤ 0 then Sum.inl "Token limit exceeded for run"
        else
          let mt :=
            match mt with
            | none => some remaining_tokens
            | some m => if remaining_tokens < m then some remaining_tokens else some m
          CostGuard.tokenLimitLoop run_state rest mt
      else CostGuard.tokenLimitLoop run_state rest mt

/-- Estimation leg of `before_model_call`: warn for each budget whose
remaining budget is below the pre-flight cost estimate. -/
def CostGuard.estimateLoop (tenant_id strand_id workflow_id : String)
    (now : DateTime) (estimated_cost : Money) :
    List BudgetSpec → BudgetTracker → List String →
    BudgetTracker × List String
  | [], tr, warnings => (tr, warnings)
  | b :: rest, tr, warnings =>
      let sr := tr.get_or_create_budget_state b tenant_id strand_id workflow_id now
      let warnings :=
        match sr.fst.remaining_budget with
        | some rb =>
            if estimated_cost > rb then
              warnings ++ ["Estimated cost exceeds remaining budget"]
            else warnings
        | none => warnings
      CostGuard.estimateLoop tenant_id strand_id workflow_id now estimated_cost
        rest sr.snd warnings

/-- `CostGuard.before_model_call`.  Unknown runs get a permissive
`allow(model_name)` with no logging.  Otherwise: routing (when enabled and
a policy matches), per-run token caps, pre-flight cost warnings, and either
a downgrade decision (whose warnings list is rebuilt) or an allow. -/
def CostGuard.before_model_call (g : CostGuard) (run_id model_name stage : String)
    (prompt_tokens_estimate : Nat) (now : DateTime) :
    ModelDecision × CostGuard × List String :=
  match g.budget_tracker.get_run_state run_id with
  | none => (ModelDecision.allow model_name none [], g, [])
  | some run_state =>
      let tenant_id := run_state.context.tenant_id
      let strand_id := run_state.context.strand_id
      let workflow_id := run_state.context.workflow_id
      let budgets := (dictGet? g.run_budgets run_id).getD []
      let routed : String × Option Int × Bool × String × BudgetTracker :=
        if g.enable_routing then
          match g.policy_store.get_routing_policy tenant_id strand_id workflow_id with
          | some policy =>
              let scan := budgets.foldl
                (CostGuard.routeScanStep tenant_id strand_id workflow_id now)
                { tracker := g.budget_tracker, soft_threshold_exceeded := false,
                  remaining_budget := none }
              let r := policy.get_model_for_stage stage
                scan.soft_threshold_exceeded scan.remaining_budget
                run_state.current_iteration none
              (r.fst, (r.snd.fst).map (fun n => (n : Int)), r.snd.snd.fst,
               r.snd.snd.snd, scan.tracker)
          | none => (model_name, none, false, "", g.budget_tracker)
        else (model_name, none, false, "", g.budget_tracker)
      let effective_model := routed.fst
      let was_downgraded := routed.snd.snd.fst
      let downgrade_reason := routed.snd.snd.snd.fst
      let g := { g with budget_tracker := routed.snd.snd.snd.snd }
      match CostGuard.tokenLimitLoop run_state budgets routed.snd.fst with
      | Sum.inl reason => (ModelDecision.reject reason, g, [])
      | Sum.inr max_tokens =>
          let ew :=
            if prompt_tokens_estimate > 0 ∧ g.enable_budget_enforcement then
              let estimated_cost := g.pricing_table.estimate_model_cost
                effective_model prompt_tokens_estimate 0
              CostGuard.estimateLoop tenant_id strand_id workflow_id now
                estimated_cost budgets g.budget_tracker []
            else (g.budget_tracker, [])
          let g := { g with budget_tracker := ew.fst }
          if was_downgraded then
            (ModelDecision.downgrade model_name effective_model downgrade_reason
              max_tokens, g, [])
          else
            (ModelDecision.allow effective_model max_tokens ew.snd, g, [])

/-- `CostGuard.after_model_call`: compute the cost from the pricing table
when the reported cost is zero, then accrue it onto the run state. -/
def CostGuard.after_model_call (g : CostGuard) (run_id : String)
    (usage : ModelUsage) : CostGuard :=
  let cost :=
    if usage.cost = 0 then
      g.pricing_table.calculate_model_cost usage.model_name usage.prompt_tokens
        usage.completion_tokens usage.cached_tokens usage.reasoning_tokens
    else usage.cost
  let tr := g.budget_tracker.update_run_cost run_id (some usage.model_name)
    cost usage.prompt_tokens usage.completion_tokens none 0
  { g with budget_tracker := tr }

/-- `CostGuard.before_tool_call`.  Unknown runs get a permissive `allow()`
with no logging; otherwise reject at the first budget whose tool-call cap
is reached (None falls back to the default), else report the minimum
remaining tool calls. -/
def CostGuard.before_tool_call (g : CostGuard) (run_id tool_name : String) :
    ToolDecision × CostGuard × List String :=
  match g.budget_tracker.get_run_state run_id with
  | none => (ToolDecision.allow none [], g, [])
  | some run_state =>
      let budgets := (dictGet? g.run_budgets run_id).getD []
      match budgets.find? (fun b =>
          run_state.total_tool_calls ≥ (b.constraints.max_tool_calls_per_run).getD
            g.default_max_tool_calls_per_run) with
      | some _ => (ToolDecision.reject "Max tool calls exceeded", g, [])
      | none =>
          let remaining : Option Int := budgets.foldl (fun rem b =>
            let max_calls := orDefaultNat b.constraints.max_tool_calls_per_run
              g.default_max_tool_calls_per_run
            let budget_remaining : Int := (max_calls : Int)
              - (run_state.total_tool_calls : Int)
            match rem with
            | none => some budget_remaining
            | some r =>
                if budget_remaining < r then some budget_remaining else some r)
            none
          (ToolDecision.allow remaining [], g, [])

/-- `CostGuard.after_tool_call`: compute the cost from the pricing table
when the reported cost is zero, then accrue it onto the run state. -/
def CostGuard.after_tool_call (g : CostGuard) (run_id tool_name : String)
    (cost_metadata : ToolUsage) : CostGuard :=
  let cost :=
    if cost_metadata.cost = 0 then
      g.pricing_table.calculate_tool_cost tool_name
        cost_metadata.input_size_bytes cost_metadata.output_size_bytes
    else cost_metadata.cost
  let tr := g.budget_tracker.update_run_cost run_id none 0 0 0 (some tool_name) cost
  { g with budget_tracker := tr }

/-! ### Hook traces

A trace of lifecycle-hook invocations, used to state invariants that hold
at every observable point. -/

inductive HookEvent where
  | runStart (tenant_id strand_id workflow_id run_id : String)
      (metadata : List (String × String)) (now : DateTime)
  | runEnd (run_id status : String)
  | beforeIteration (run_id : String) (iteration_idx : Nat) (now : DateTime)
  | afterIteration (run_id : String) (iteration_idx : Nat) (usage : IterationUsage)
  | beforeModelCall (run_id model_name stage : String)
      (prompt_tokens_estimate : Nat) (now : DateTime)
  | afterModelCall (run_id : String) (usage : ModelUsage)
  | beforeToolCall (run_id tool_name : String)
  | afterToolCall (run_id tool_name : String) (cost_metadata : ToolUsage)

/-- Apply one hook invocation to the guard, dropping the decision. -/
def CostGuard.applyEvent (g : CostGuard) (e : HookEvent) : CostGuard :=
  match e with
  | .runStart t s w r md now => (g.on_run_start t s w r md now).snd
  | .runEnd r status => g.on_run_end r status
  | .beforeIteration r idx now => (g.before_iteration r idx now).snd.fst
  | .afterIteration r idx usage => g.after_iteration r idx usage
  | .beforeModelCall r m st est now =>
      (g.before_model_call r m st est now).snd.fst
  | .afterModelCall r usage => g.after_model_call r usage
  | .beforeToolCall r t => (g.before_tool_call r t).snd.fst
  | .afterToolCall r t usage => g.after_tool_call r t usage

/-- Apply a list of hook invocations in order. -/
def CostGuard.applyEvents (g : CostGuard) (events : List HookEvent) : CostGuard :=
  events.foldl CostGuard.applyEvent g

/-! ### Invariant predicates and spec-side comparison definitions -/

/-- The cost-ledger invariant of a run: total cost equals the sum of the
per-model costs plus the sum of the per-tool costs. -/
def RunState.costInvariant (rs : RunState) : Prop :=
  rs.total_cost = sumVals rs.model_costs + sumVals rs.tool_costs

/-- All run states held by a tracker satisfy the cost-ledger invariant. -/
def TrackerInv (tr : BudgetTracker) : Prop :=
  ∀ kv ∈ tr.run_states, RunState.costInvariant kv.snd

/-- The cached budget states of the given budgets, in budget order. -/
def cachedStates (tr : BudgetTracker) (tenant_id strand_id workflow_id : String)
    (budgets : List BudgetSpec) : List BudgetState :=
  budgets.filterMap (fun b =>
    dictGet? tr.budget_states
      (BudgetTracker.get_scope_key b tenant_id strand_id workflow_id))

/-- One budget's state is cached for that same budget and its period is
not yet expired. -/
def budgetCachedFresh (tr : BudgetTracker) (tenant_id strand_id workflow_id : String)
    (now : DateTime) (b : BudgetSpec) : Bool :=
  match dictGet? tr.budget_states
      (BudgetTracker.get_scope_key b tenant_id strand_id workflow_id) with
  | some st => ! st.is_period_expired now && decide (st.budget = b)
  | none => false

/-- Every budget's state is cached and fresh. -/
def allCachedFresh (tr : BudgetTracker) (tenant_id strand_id workflow_id : String)
    (now : DateTime) (budgets : List BudgetSpec) : Bool :=
  budgets.all (budgetCachedFresh tr tenant_id strand_id workflow_id now)

/-- The remaining-budget / utilization pair produced by the `on_run_start`
scan, as a pure fold over the budget states: the pair is updated only when
no value is held yet, or when the state's remaining budget is truthy
(nonzero) and strictly smaller; both fields always move together. -/
def runStartScanAux (states : List BudgetState)
    (acc : Option Money × Option Money) : Option Money × Option Money :=
  match states with
  | [] => acc
  | st :: rest =>
      let acc :=
        if qTruthy st.budget.max_cost then
          let update : Bool :=
            match acc.fst with
            | none => true
            | some rem =>
                match st.remaining_budget with
                | none => false
                | some rb => rb ≠ 0 ∧ rb < rem
          if update then (st.remaining_budget, some st.utilization) else acc
        else acc
      runStartScanAux rest acc

/-- Spec-side reading of the claim: the minimum remaining budget across the
states whose budget sets `max_cost` (None when none does). -/
def specMinRemaining (states : List BudgetState) : Option Money :=
  states.foldl (fun acc st =>
    match st.budget.max_cost, st.remaining_budget with
    | some _, some rb =>
        match acc with
        | none => some rb
        | some r => some (min r rb)
    | _, _ => acc) none

/-- Spec-side reading of the claim: the maximum utilization across all the
states. -/
def specMaxUtilization (states : List BudgetState) : Option Money :=
  states.foldl (fun acc st =>
    match acc with
    | none => some st.utilization
    | some u => some (max u st.utilization)) none

/-- Spec-side reading of the pricing claim: resolve by the longest known
prefix of the model name. -/
def longestPrefixResolve (t : PricingTable) (name : String) :
    Option (String × ModelPricing) :=
  (t.models.filter (fun kv => strIsPrefixOf kv.fst name)).foldl
    (fun acc kv =>
      match acc with
      | none => some kv
      | some best => if kv.fst.length > best.fst.length then some kv else some best)
    none

/-- The fallback pricing record built by `get_model_pricing` for a fully
unknown model. -/
def fallbackModelPricing (t : PricingTable) (name : String) : ModelPricing :=
  { model_name := name, input_per_1k := t.fallback_input_per_1k,
    output_per_1k := t.fallback_output_per_1k, currency := t.currency,
    cached_input_per_1k := none, reasoning_per_1k := none }

/-- Spec-side reading of the cost-formula claim: cached tokens priced at
the cached rate when set, else at the full input rate. -/
def specClaimModelCost (p : ModelPricing)
    (prompt_tokens completion_tokens cached_tokens reasoning_tokens : Nat) : Money :=
  ((prompt_tokens : Money) - (cached_tokens : Money)) / 1000 * p.input_per_1k
    + (cached_tokens : Money) / 1000 * (p.cached_input_per_1k.getD p.input_per_1k)
    + (completion_tokens : Money) / 1000 * p.output_per_1k
    + (reasoning_tokens : Money) / 1000 * (p.reasoning_per_1k.getD 0)

/-- Amended cost formula: cached tokens priced at the cached rate when set
and at nothing otherwise. -/
def specAmendedModelCost (p : ModelPricing)
    (prompt_tokens completion_tokens cached_tokens reasoning_tokens : Nat) : Money :=
  ((prompt_tokens : Money) - (cached_tokens : Money)) / 1000 * p.input_per_1k
    + (cached_tokens : Money) / 1000 * (p.cached_input_per_1k.getD 0)
    + (completion_tokens : Money) / 1000 * p.output_per_1k
    + (reasoning_tokens : Money) / 1000 * (p.reasoning_per_1k.getD 0)

/-! ### Concrete fixtures used by witnesses and counterexamples -/

def dtNow : DateTime := ⟨2024, 3, 15, 12, 0, 0, 0⟩
def dtStart : DateTime := ⟨2024, 3, 15, 0, 0, 0, 0⟩
def dtFar : DateTime := ⟨2124, 1, 1, 0, 0, 0, 0⟩
def dtPast : DateTime := ⟨2024, 3, 15, 11, 0, 0, 0⟩

/-- A wildcard-matching tenant-scope budget. -/
def mkBudget (id : String) (maxCost : Option Money) (hard : Bool) : BudgetSpec :=
  { id := id, scope := BudgetScope.TENANT,
    match_ := { tenant_id := "*", strand_id := "*", workflow_id := "*" },
    period := BudgetPeriod.DAILY, max_cost := maxCost,
    soft_thresholds := [1], hard_limit := hard,
    on_soft_threshold_exceeded := ThresholdAction.LOG_ONLY,
    on_hard_limit_exceeded := HardLimitAction.REJECT_NEW_RUNS,
    max_runs_per_period := none, max_concurrent_runs := none,
    constraints := BudgetConstraints.default, enabled := true }

def exBudgetB2 : BudgetSpec := mkBudget "b2" (some 100) true

def exBudgetB1 : BudgetSpec := mkBudget "b1" (some 10) false

def exStateB2 : BudgetState :=
  { budget := exBudgetB2, usage := PeriodUsage.init "tenant" "b2" dtStart dtFar,
    active_runs := [] }

def exStateB1 : BudgetState :=
  { budget := exBudgetB1,
    usage := { PeriodUsage.init "tenant" "b1" dtStart dtFar with total_cost := 10 },
    active_runs := [] }

/-- Guard fixture with two pre-seeded tenant budgets: `b2` untouched
(`remaining 100`), `b1` exhausted but soft (`remaining 0, utilization 1`). -/
def exGuardC4 : CostGuard :=
  { enable_budget_enforcement := true, enable_routing := false,
    default_max_iterations_per_run := 50, default_max_tool_calls_per_run := 100,
    policy_store := PolicyStore.refresh [exBudgetB2, exBudgetB1] [],
    pricing_table := PricingTable.default,
    budget_tracker :=
      { budget_states := [("tenant:t1:b2", exStateB2), ("tenant:t1:b1", exStateB1)],
        run_states := [] },
    run_budgets := [] }

/-- Guard fixture with no policies and an empty tracker. -/
def exEmptyGuard : CostGuard :=
  { enable_budget_enforcement := true, enable_routing := true,
    default_max_iterations_per_run := 50, default_max_tool_calls_per_run := 100,
    policy_store := PolicyStore.refresh [] [],
    pricing_table := PricingTable.default,
    budget_tracker := BudgetTracker.init, run_budgets := [] }

/-- Guard fixture with enforcement disabled and one matching budget. -/
def exGuardC5 : CostGuard :=
  { exEmptyGuard with
    enable_budget_enforcement := false,
    policy_store := PolicyStore.refresh [exBudgetB2] [] }

def exCtxC2 : RunContext :=
  { tenant_id := "t1", strand_id := "s1", workflow_id := "w1", run_id := "r1",
    metadata := [], started_at := dtStart }

def exRunC2 : RunState :=
  { RunState.init exCtxC2 with total_cost := 5, model_costs := [("gpt-4o", 5)] }

def exStateC2 : BudgetState :=
  { budget := exBudgetB2,
    usage := { PeriodUsage.init "tenant" "b2" dtStart dtFar with concurrent_runs := 1 },
    active_runs := ["r1"] }

def exTrackerC2 : BudgetTracker :=
  { budget_states := [("tenant:t1:b2", exStateC2)],
    run_states := [("r1", exRunC2)] }

/-- Expired budget state for the rollover claim: its hourly period ended at
11:00 while the access happens at 12:00. -/
def exStateC3 : BudgetState :=
  { budget := { mkBudget "b3" (some 100) true with period := BudgetPeriod.HOURLY },
    usage := { PeriodUsage.init "tenant" "b3" ⟨2024, 3, 15, 10, 0, 0, 0⟩ dtPast with
      total_cost := 7, total_runs := 2, concurrent_runs := 1,
      total_input_tokens := 11, total_output_tokens := 12, total_iterations := 3,
      total_tool_calls := 4, model_costs := [("gpt-4o", 7)] },
    active_runs := ["r3"] }

def exTrackerC3 : BudgetTracker :=
  { budget_states := [("tenant:t1:b3", exStateC3)], run_states := [] }

/-- Pricing row with no cached rate, used against the cost-formula claim. -/
def exPricingNoCache : ModelPricing :=
  { model_name := "m", input_per_1k := 1, output_per_1k := 2, currency := "USD",
    cached_input_per_1k := none, reasoning_per_1k := none }

/-- Pricing row with a cached rate. -/
def exPricingCached : ModelPricing :=
  { model_name := "m", input_per_1k := 1, output_per_1k := 2, currency := "USD",
    cached_input_per_1k := some 0.5, reasoning_per_1k := none }

/-- Guard fixture holding one registered run, for the zero-cost frame
claim. -/
def exGuardC10 : CostGuard :=
  { exEmptyGuard with budget_tracker :=
      { budget_states := [], run_states := [("r1", exRunC2)] } }

/-- A model usage record with zero cost and zero token counts. -/
def exZeroUsage : ModelUsage :=
  { model_name := "gpt-4o", prompt_tokens := 0, completion_tokens := 0,
    total_tokens := 0, cost := 0, latency_ms := none, cached_tokens := 0,
    reasoning_tokens := 0 }

/-- A model usage record with an externally supplied cost. -/
def exCostUsage : ModelUsage :=
  { model_name := "gpt-4o", prompt_tokens := 1000, completion_tokens := 500,
    total_tokens := 1500, cost := 5, latency_ms := none, cached_tokens := 0,
    reasoning_tokens := 0 }

/-! ## Theorems

Shared helper lemmas first, then one theorem per claim (with witnesses and
counterexamples where required). -/


theorem dictGet?_dictInsert_self {α : Type} (m : List (String × α)) (k : String)
    (v : α) : dictGet? (dictInsert m k v) k = some v := by
  induction m with
  | nil => simp [dictInsert, dictGet?]
  | cons kv rest ih =>
      obtain ⟨a, b⟩ := kv
      by_cases hk : a = k
      · simp [dictInsert, dictGet?, hk]
      · simp [dictInsert, dictGet?, hk, ih]

theorem dictGet?_dictInsert_ne {α : Type} (m : List (String × α)) (k k' : String)
    (v : α) (h : k' ≠ k) : dictGet? (dictInsert m k v) k' = dictGet? m k' := by
  have hne : ¬ k = k' := fun he => h he.symm
  induction m with
  | nil => simp [dictInsert, dictGet?, hne]
  | cons kv rest ih =>
      obtain ⟨a, b⟩ := kv
      by_cases hk : a = k
      · by_cases hk' : a = k'
        · exact absurd (hk'.symm.trans hk) h
        · simp [dictInsert, dictGet?, hk, hk', hne]
      · by_cases hk' : a = k'
        · simp [dictInsert, dictGet?, hk, hk', h]
        · simp [dictInsert, dictGet?, hk, hk', ih]

theorem dictInsert_self_eq {α : Type} (m : List (String × α)) (k : String) (v : α)
    (h : dictGet? m k = some v) : dictInsert m k v = m := by
  induction m with
  | nil => simp [dictGet?] at h
  | cons kv rest ih =>
      obtain ⟨a, b⟩ := kv
      by_cases hk : a = k
      · have hb : b = v := by simpa [dictGet?, hk] using h
        simp [dictInsert, hk, hb]
      · have h' : dictGet? rest k = some v := by simpa [dictGet?, hk] using h
        simp [dictInsert, hk, ih h']

theorem dictGet?_eq_none_of_not_mem {α : Type} (m : List (String × α)) (k : String)
    (h : k ∉ m.map Prod.fst) : dictGet? m k = none := by
  induction m with
  | nil => rfl
  | cons kv rest ih =>
      obtain ⟨a, b⟩ := kv
      simp only [List.map_cons, List.mem_cons, not_or] at h
      have ha : ¬ a = k := fun he => h.1 he.symm
      simp [dictGet?, ha, ih h.2]

theorem dictGet?_dictRemove_self {α : Type} (m : List (String × α)) (k : String)
    (h : (m.map Prod.fst).Nodup) : dictGet? (dictRemove m k) k = none := by
  induction m with
  | nil => rfl
  | cons kv rest ih =>
      obtain ⟨a, b⟩ := kv
      simp only [List.map_cons, List.nodup_cons] at h
      by_cases hk : a = k
      · subst hk
        simp only [dictRemove, if_pos rfl]
        exact dictGet?_eq_none_of_not_mem rest a h.1
      · simp [dictRemove, dictGet?, hk, ih h.2]

theorem sumVals_dictInsert_add (m : List (String × Money)) (k : String) (c : Money) :
    sumVals (dictInsert m k (dictGetD m k + c)) = sumVals m + c := by
  induction m with
  | nil => simp [dictInsert, dictGetD, dictGet?, sumVals]
  | cons kv rest ih =>
      obtain ⟨a, b⟩ := kv
      by_cases hk : a = k
      · simp [dictGetD, dictGet?, hk, dictInsert, sumVals]
        ring
      · have hd : dictGetD ((a, b) :: rest) k = dictGetD rest k := by
          simp [dictGetD, dictGet?, hk]
        rw [hd]
        simp only [dictInsert, if_neg hk, sumVals, ih]
        ring

/-! ### C7: the model-call cost formula -/

/-- C7 counterexample: with no cached rate configured, a fully cached
prompt is charged nothing by the code, while the claimed formula charges it
at the full input rate. -/
theorem C7_cached_rate_counterexample :
    exPricingNoCache.calculate_cost 1000 0 1000 0 = 0
      ∧ specClaimModelCost exPricingNoCache 1000 0 1000 0 = 1
      ∧ (0 : Money) ≠ 1 := by
  refine ⟨?_, ?_, by norm_num⟩
  · simp [ModelPricing.calculate_cost, exPricingNoCache]
  · norm_num [specClaimModelCost, exPricingNoCache]

/-- C7 (amended): for `cached_tokens ≤ prompt_tokens` the computed cost is
`((prompt − cached)/1000)·input + (cached/1000)·(cached rate if set, else
0) + (completion/1000)·output + (reasoning/1000)·(reasoning rate if set,
else 0)`: cached tokens are uncharged, not charged at the input rate, when
`cached_input_per_1k` is unset. -/
theorem C7_model_cost_formula (p : ModelPricing)
    (prompt_tokens completion_tokens cached_tokens reasoning_tokens : Nat)
    (h : cached_tokens ≤ prompt_tokens) :
    p.calculate_cost prompt_tokens completion_tokens cached_tokens reasoning_tokens
      = specAmendedModelCost p prompt_tokens completion_tokens cached_tokens
          reasoning_tokens := by
  obtain ⟨name, inp, outp, cur, co, ro⟩ := p
  have hcast : ((prompt_tokens - cached_tokens : Nat) : Money)
      = (prompt_tokens : Money) - (cached_tokens : Money) := by
    push_cast [h]
    ring
  rcases co with _ | cr <;> rcases ro with _ | rr <;>
    rcases Nat.eq_zero_or_pos cached_tokens with hc | hc <;>
    rcases Nat.eq_zero_or_pos reasoning_tokens with hr | hr <;>
    simp [ModelPricing.calculate_cost, specAmendedModelCost, hc, hr,
      Nat.pos_iff_ne_zero.mp, hcast, Nat.not_lt.mpr, hc.le, hr.le]

/-- Witness for C7 at a concrete pricing row with a cached rate. -/
theorem C7_model_cost_formula_witness :
    500 ≤ 1000
      ∧ exPricingCached.calculate_cost 1000 500 500 0
        = specAmendedModelCost exPricingCached 1000 500 500 0 :=
  ⟨by norm_num, C7_model_cost_formula exPricingCached 1000 500 500 0 (by norm_num)⟩

/-! ### C6: model pricing resolution -/

theorem find?_append_first {α : Type} (p : α → Bool) (pre post : List α) (x : α)
    (hpre : ∀ e ∈ pre, p e = false) (hx : p x = true) :
    (pre ++ x :: post).find? p = some x := by
  induction pre with
  | nil => simp [List.find?, hx]
  | cons y ys ih =>
      have hy := hpre y (List.mem_cons_self y ys)
      simp only [List.cons_append, List.find?, hy]
      exact ih (fun e he => hpre e (List.mem_cons_of_mem y he))

/-- C6 counterexample: for `gpt-4-turbo-2024` the code returns the `gpt-4`
entry (the first prefix in insertion order, input rate 30), while the
longest known prefix is `gpt-4-turbo` (input rate 10). -/
theorem C6_longest_prefix_counterexample :
    (PricingTable.default.get_model_pricing "gpt-4-turbo-2024").input_per_1k = 30
    ∧ (longestPrefixResolve PricingTable.default "gpt-4-turbo-2024").map
        (fun kv => kv.fst) = some "gpt-4-turbo"
    ∧ (longestPrefixResolve PricingTable.default "gpt-4-turbo-2024").map
        (fun kv => kv.snd.input_per_1k) = some 10
    ∧ (30 : Money) ≠ 10 := by decide

/-- C6 (amended): `get_model_pricing` is total and resolves by (a) the
exact dict entry, else (b) the entry of the FIRST known model in the
table's insertion order that is a prefix of the requested name (not the
longest such prefix), else (c) the fallback rates. -/
theorem C6_prefix_resolution (t : PricingTable) (name : String) :
    (∀ p, dictGet? t.models name = some p → t.get_model_pricing name = p)
    ∧ (dictGet? t.models name = none →
        ∀ pre kv post, t.models = pre ++ kv :: post →
          (∀ e ∈ pre, strIsPrefixOf e.fst name = false) →
          strIsPrefixOf kv.fst name = true →
          t.get_model_pricing name = kv.snd)
    ∧ (dictGet? t.models name = none →
        (∀ e ∈ t.models, strIsPrefixOf e.fst name = false) →
        t.get_model_pricing name = fallbackModelPricing t name) := by
  refine ⟨?_, ?_, ?_⟩
  · intro p hp
    simp [PricingTable.get_model_pricing, hp]
  · intro hnone pre kv post hdec hpre hkv
    have hfind : t.models.find? (fun kv2 => strIsPrefixOf kv2.fst name) = some kv := by
      rw [hdec]
      exact find?_append_first _ pre post kv hpre hkv
    simp [PricingTable.get_model_pricing, hnone, hfind]
  · intro hnone hall
    have hfind : t.models.find? (fun kv2 => strIsPrefixOf kv2.fst name) = none := by
      rw [List.find?_eq_none]
      intro e he
      simp [hall e he]
    simp [PricingTable.get_model_pricing, hnone, hfind, fallbackModelPricing]

/-- Witness for C6: the default table resolves `gpt-4-turbo-2024` to the
first prefix entry, `gpt-4`. -/
theorem C6_prefix_resolution_witness :
    PricingTable.default.get_model_pricing "gpt-4-turbo-2024"
      = (defaultEntry "gpt-4" 30 60).snd :=
  (C6_prefix_resolution PricingTable.default "gpt-4-turbo-2024").2.1 (by decide)
    [] (defaultEntry "gpt-4" 30 60) DEFAULT_MODEL_PRICING.tail rfl
    (by simp) (by decide)

/-! ### C9: unknown runs in `before_*` hooks -/

/-- C9 counterexample: for an unknown run, `before_model_call` and
`before_tool_call` log no warning at all (the list of logged warnings is
empty), though both are permissive. -/
theorem C9_no_logging_counterexample :
    (exEmptyGuard.before_model_call "r9" "gpt-4o" "other" 0 dtNow).snd.snd = []
    ∧ (exEmptyGuard.before_model_call "r9" "gpt-4o" "other" 0 dtNow).fst.allowed = true
    ∧ (exEmptyGuard.before_tool_call "r9" "search").snd.snd = []
    ∧ (exEmptyGuard.before_tool_call "r9" "search").fst.allowed = true := by
  refine ⟨?_, ?_, ?_, ?_⟩ <;>
    simp [CostGuard.before_model_call, CostGuard.before_tool_call,
      BudgetTracker.get_run_state, exEmptyGuard, BudgetTracker.init, dictGet?,
      ModelDecision.allow, ToolDecision.allow]

/-- C9 (amended): a `before_*` hook called with an unregistered run id
returns a permissive decision and leaves the guard untouched; only
`before_iteration` logs a warning, while `before_model_call` and
`before_tool_call` return silently. -/
theorem C9_unknown_run_permissive (g : CostGuard)
    (run_id model_name stage tool_name : String) (iteration_idx est : Nat)
    (now : DateTime)
    (h : g.budget_tracker.get_run_state run_id = none) :
    g.before_iteration run_id iteration_idx now
      = (IterationDecision.proceed none [], g,
         ["before_iteration called for unknown run: " ++ run_id])
    ∧ g.before_model_call run_id model_name stage est now
      = (ModelDecision.allow model_name none [], g, [])
    ∧ g.before_tool_call run_id tool_name
      = (ToolDecision.allow none [], g, []) := by
  refine ⟨?_, ?_, ?_⟩ <;>
    simp [CostGuard.before_iteration, CostGuard.before_model_call,
      CostGuard.before_tool_call, h]

/-- Witness for C9 on the empty guard. -/
theorem C9_unknown_run_permissive_witness :
    exEmptyGuard.before_iteration "r9" 0 dtNow
      = (IterationDecision.proceed none [], exEmptyGuard,
         ["before_iteration called for unknown run: " ++ "r9"])
    ∧ exEmptyGuard.before_model_call "r9" "gpt-4o" "other" 0 dtNow
      = (ModelDecision.allow "gpt-4o" none [], exEmptyGuard, [])
    ∧ exEmptyGuard.before_tool_call "r9" "search"
      = (ToolDecision.allow none [], exEmptyGuard, []) :=
  C9_unknown_run_permissive exEmptyGuard "r9" "gpt-4o" "other" "search" 0 0 dtNow rfl

/-! ### C10: zero-cost model calls leave the run state unchanged -/

/-- C10: when the reported cost is zero and the pricing table also computes
zero, `after_model_call` leaves the guard (in particular every run state,
including its token totals) completely unchanged, because
`update_run_cost` records model usage only for strictly positive cost. -/
theorem C10_zero_cost_frame (g : CostGuard) (run_id : String) (usage : ModelUsage)
    (h0 : usage.cost = 0)
    (hc : g.pricing_table.calculate_model_cost usage.model_name usage.prompt_tokens
        usage.completion_tokens usage.cached_tokens usage.reasoning_tokens = 0) :
    g.after_model_call run_id usage = g := by
  unfold CostGuard.after_model_call
  simp only [h0, if_pos rfl, hc]
  unfold BudgetTracker.update_run_cost
  cases hrs : dictGet? g.budget_tracker.run_states run_id with
  | none => rfl
  | some rs =>
      simp only [hrs, lt_irrefl, and_false, if_neg]
      have : dictInsert g.budget_tracker.run_states run_id rs
          = g.budget_tracker.run_states := dictInsert_self_eq _ _ _ hrs
      simp [this, strTruthy]

/-- Witness for C10: a zero-token usage on a guard holding a live run. -/
theorem C10_zero_cost_frame_witness :
    exZeroUsage.cost = 0
      ∧ exGuardC10.after_model_call "r1" exZeroUsage = exGuardC10 :=
  ⟨rfl, C10_zero_cost_frame exGuardC10 "r1" exZeroUsage rfl
    (by simp [PricingTable.calculate_model_cost, ModelPricing.calculate_cost,
      exZeroUsage])⟩

/-! ### C3: period rollover on access -/

/-- C3: accessing a cached budget state whose period has ended
(`period_end ≤ now`) resets every accumulator to zero, installs the new
`[start, end)` computed by the rollover rule for the budget's period, and
preserves the set of active concurrent runs unchanged; the reset state is
what the access returns and caches. -/
theorem C3_rollover_resets_and_keeps_runs (tr : BudgetTracker)
    (budget : BudgetSpec) (tenant_id strand_id workflow_id : String)
    (now : DateTime) (st : BudgetState)
    (hc : dictGet? tr.budget_states
        (BudgetTracker.get_scope_key budget tenant_id strand_id workflow_id)
        = some st)
    (hexp : st.usage.period_end ≤ now) :
    let r := tr.get_or_create_budget_state budget tenant_id strand_id
      workflow_id now
    r.fst.usage.total_cost = 0 ∧ r.fst.usage.total_runs = 0
    ∧ r.fst.usage.concurrent_runs = 0 ∧ r.fst.usage.total_input_tokens = 0
    ∧ r.fst.usage.total_output_tokens = 0 ∧ r.fst.usage.total_iterations = 0
    ∧ r.fst.usage.total_tool_calls = 0 ∧ r.fst.usage.model_costs = []
    ∧ r.fst.usage.tool_costs = []
    ∧ r.fst.usage.period_start
        = (get_period_boundaries st.budget.period now).fst
    ∧ r.fst.usage.period_end
        = (get_period_boundaries st.budget.period now).snd
    ∧ r.fst.active_runs = st.active_runs
    ∧ r.fst.budget = st.budget
    ∧ dictGet? r.snd.budget_states
        (BudgetTracker.get_scope_key budget tenant_id strand_id workflow_id)
        = some r.fst := by
  have hb : st.is_period_expired now = true := by
    simp [BudgetState.is_period_expired, hexp]
  simp [BudgetTracker.get_or_create_budget_state, hc, hb,
    BudgetState.reset_for_new_period, PeriodUsage.init,
    dictGet?_dictInsert_self]

/-- Witness for C3: an hourly state that expired at 11:00, accessed at
12:00, rolls to the [12:00, 13:00) period with zeroed accumulators while
run `r3` stays active. -/
theorem C3_rollover_witness :
    (exTrackerC3.get_or_create_budget_state exStateC3.budget
        "t1" "s1" "w1" dtNow).fst.usage.total_cost = 0
    ∧ (exTrackerC3.get_or_create_budget_state exStateC3.budget
        "t1" "s1" "w1" dtNow).fst.usage.total_runs = 0
    ∧ (exTrackerC3.get_or_create_budget_state exStateC3.budget
        "t1" "s1" "w1" dtNow).fst.usage.concurrent_runs = 0
    ∧ (exTrackerC3.get_or_create_budget_state exStateC3.budget
        "t1" "s1" "w1" dtNow).fst.usage.total_input_tokens = 0
    ∧ (exTrackerC3.get_or_create_budget_state exStateC3.budget
        "t1" "s1" "w1" dtNow).fst.usage.total_output_tokens = 0
    ∧ (exTrackerC3.get_or_create_budget_state exStateC3.budget
        "t1" "s1" "w1" dtNow).fst.usage.total_iterations = 0
    ∧ (exTrackerC3.get_or_create_budget_state exStateC3.budget
        "t1" "s1" "w1" dtNow).fst.usage.total_tool_calls = 0
    ∧ (exTrackerC3.get_or_create_budget_state exStateC3.budget
        "t1" "s1" "w1" dtNow).fst.usage.model_costs = []
    ∧ (exTrackerC3.get_or_create_budget_state exStateC3.budget
        "t1" "s1" "w1" dtNow).fst.usage.tool_costs = []
    ∧ (exTrackerC3.get_or_create_budget_state exStateC3.budget
        "t1" "s1" "w1" dtNow).fst.usage.period_start
        = (get_period_boundaries exStateC3.budget.period dtNow).fst
    ∧ (exTrackerC3.get_or_create_budget_state exStateC3.budget
        "t1" "s1" "w1" dtNow).fst.usage.period_end
        = (get_period_boundaries exStateC3.budget.period dtNow).snd
    ∧ (exTrackerC3.get_or_create_budget_state exStateC3.budget
        "t1" "s1" "w1" dtNow).fst.active_runs = exStateC3.active_runs
    ∧ (exTrackerC3.get_or_create_budget_state exStateC3.budget
        "t1" "s1" "w1" dtNow).fst.budget = exStateC3.budget
    ∧ dictGet? (exTrackerC3.get_or_create_budget_state exStateC3.budget
        "t1" "s1" "w1" dtNow).snd.budget_states
        (BudgetTracker.get_scope_key exStateC3.budget "t1" "s1" "w1")
        = some (exTrackerC3.get_or_create_budget_state exStateC3.budget
            "t1" "s1" "w1" dtNow).fst :=
  C3_rollover_resets_and_keeps_runs exTrackerC3 exStateC3.budget "t1" "s1" "w1"
    dtNow exStateC3 rfl (by decide)

/-! ### C2: `end_run` commits a run into the period ledgers -/

theorem unregisterStep_run_states (rs : RunState) (run_id : String)
    (tr : BudgetTracker) (b : BudgetSpec) :
    (BudgetTracker.unregisterStep rs run_id tr b).run_states = tr.run_states := by
  unfold BudgetTracker.unregisterStep
  cases hc : dictGet? tr.budget_states (BudgetTracker.get_scope_key b
    rs.context.tenant_id rs.context.strand_id rs.context.workflow_id) <;>
    simp [hc]

theorem unregisterFold_run_states (rs : RunState) (run_id : String) :
    ∀ (budgets : List BudgetSpec) (tr : BudgetTracker),
    ((budgets.foldl (BudgetTracker.unregisterStep rs run_id) tr).run_states)
      = tr.run_states := by
  intro budgets
  induction budgets with
  | nil => intro tr; rfl
  | cons b rest ih =>
      intro tr
      simp only [List.foldl_cons, ih, unregisterStep_run_states]

theorem unregisterStep_lookup_ne (rs : RunState) (run_id : String)
    (tr : BudgetTracker) (b : BudgetSpec) (k : String)
    (hne : k ≠ BudgetTracker.get_scope_key b rs.context.tenant_id
      rs.context.strand_id rs.context.workflow_id) :
    dictGet? (BudgetTracker.unregisterStep rs run_id tr b).budget_states k
      = dictGet? tr.budget_states k := by
  unfold BudgetTracker.unregisterStep
  cases hc : dictGet? tr.budget_states (BudgetTracker.get_scope_key b
    rs.context.tenant_id rs.context.strand_id rs.context.workflow_id) with
  | none => simp [hc]
  | some st => simp [hc, dictGet?_dictInsert_ne _ _ _ _ hne]

theorem unregisterFold_lookup_notmem (rs : RunState) (run_id : String) :
    ∀ (budgets : List BudgetSpec) (tr : BudgetTracker) (k : String),
    k ∉ budgets.map (fun b2 => BudgetTracker.get_scope_key b2
      rs.context.tenant_id rs.context.strand_id rs.context.workflow_id) →
    dictGet? ((budgets.foldl (BudgetTracker.unregisterStep rs run_id) tr).budget_states) k
      = dictGet? tr.budget_states k := by
  intro budgets
  induction budgets with
  | nil => intro tr k _; rfl
  | cons b rest ih =>
      intro tr k hk
      simp only [List.map_cons, List.mem_cons, not_or] at hk
      simp only [List.foldl_cons, ih _ _ hk.2,
        unregisterStep_lookup_ne rs run_id tr b k hk.1]

theorem unregisterFold_commit (rs : RunState) (run_id : String) :
    ∀ (budgets : List BudgetSpec) (tr : BudgetTracker) (b : BudgetSpec)
      (st : BudgetState),
    b ∈ budgets →
    (budgets.map (fun b2 => BudgetTracker.get_scope_key b2 rs.context.tenant_id
      rs.context.strand_id rs.context.workflow_id)).Nodup →
    dictGet? tr.budget_states (BudgetTracker.get_scope_key b rs.context.tenant_id
      rs.context.strand_id rs.context.workflow_id) = some st →
    dictGet? ((budgets.foldl (BudgetTracker.unregisterStep rs run_id) tr).budget_states)
        (BudgetTracker.get_scope_key b rs.context.tenant_id rs.context.strand_id
          rs.context.workflow_id)
      = some { st with
          active_runs := setDiscard st.active_runs run_id,
          usage := ({ st.usage with
            concurrent_runs := (setDiscard st.active_runs run_id).length }).add_run_cost
              rs } := by
  intro budgets
  induction budgets with
  | nil => intro tr b st hb; exact absurd hb (List.not_mem_nil b)
  | cons b2 rest ih =>
      intro tr b st hb hnd hst
      simp only [List.map_cons, List.nodup_cons] at hnd
      rcases List.mem_cons.mp hb with hbe | hbm
      · subst hbe
        simp only [List.foldl_cons]
        rw [unregisterFold_lookup_notmem rs run_id rest _ _ hnd.1]
        unfold BudgetTracker.unregisterStep
        simp [hst, dictGet?_dictInsert_self]
      · have hkne : BudgetTracker.get_scope_key b rs.context.tenant_id
            rs.context.strand_id rs.context.workflow_id
            ≠ BudgetTracker.get_scope_key b2 rs.context.tenant_id
              rs.context.strand_id rs.context.workflow_id := by
          intro he
          exact hnd.1 (he ▸ List.mem_map.mpr ⟨b, hbm, rfl⟩)
        simp only [List.foldl_cons]
        refine ih _ b st hbm hnd.2 ?_
        rw [unregisterStep_lookup_ne rs run_id tr b2 _ hkne]
        exact hst

/-- C2: unregistering a registered run pops its run state and, for every
matching budget whose state is cached (as is the case after an admission
that consulted the limits), removes the run from the concurrent set and
folds the run's totals into that budget's current period usage: total cost
grows by exactly the run's total cost and the run count by exactly one. -/
theorem C2_end_run_commit (tr : BudgetTracker) (run_id : String) (rs : RunState)
    (budgets : List BudgetSpec) (b : BudgetSpec) (st : BudgetState)
    (hrun : dictGet? tr.run_states run_id = some rs)
    (hnodup_rs : (tr.run_states.map Prod.fst).Nodup)
    (hb : b ∈ budgets)
    (hkeys : (budgets.map (fun b2 => BudgetTracker.get_scope_key b2
      rs.context.tenant_id rs.context.strand_id rs.context.workflow_id)).Nodup)
    (hst : dictGet? tr.budget_states (BudgetTracker.get_scope_key b
      rs.context.tenant_id rs.context.strand_id rs.context.workflow_id) = some st) :
    let r := tr.unregister_run run_id budgets
    r.fst = some rs
    ∧ dictGet? r.snd.run_states run_id = none
    ∧ dictGet? r.snd.budget_states (BudgetTracker.get_scope_key b
        rs.context.tenant_id rs.context.strand_id rs.context.workflow_id)
      = some { st with
          active_runs := setDiscard st.active_runs run_id,
          usage := ({ st.usage with
            concurrent_runs := (setDiscard st.active_runs run_id).length }).add_run_cost
              rs }
    ∧ ∀ st', dictGet? r.snd.budget_states (BudgetTracker.get_scope_key b
        rs.context.tenant_id rs.context.strand_id rs.context.workflow_id)
          = some st' →
        st'.usage.total_cost = st.usage.total_cost + rs.total_cost
        ∧ st'.usage.total_runs = st.usage.total_runs + 1
        ∧ st'.active_runs = setDiscard st.active_runs run_id := by
  intro r
  have hr : r = tr.unregister_run run_id budgets := rfl
  unfold BudgetTracker.unregister_run at hr
  rw [hrun] at hr
  have hcommit := unregisterFold_commit rs run_id budgets
    { tr with run_states := dictRemove tr.run_states run_id } b st hb hkeys hst
  refine ⟨by rw [hr], ?_, ?_, ?_⟩
  · rw [hr]
    simp only [unregisterFold_run_states]
    exact dictGet?_dictRemove_self tr.run_states run_id hnodup_rs
  · rw [hr]
    exact hcommit
  · intro st' hst'
    rw [hr] at hst'
    rw [hcommit] at hst'
    cases hst'
    simp [PeriodUsage.add_run_cost]

/-- Witness for C2 on a tracker with one registered run worth 5 and one
cached budget state: the commit increments the period total by 5 and the
run count by 1, empties the concurrent set, and deletes the run state. -/
theorem C2_end_run_commit_witness :
    (exTrackerC2.unregister_run "r1" [exBudgetB2]).fst = some exRunC2
    ∧ dictGet? (exTrackerC2.unregister_run "r1" [exBudgetB2]).snd.run_states "r1"
        = none
    ∧ ((dictGet? (exTrackerC2.unregister_run "r1"
          [exBudgetB2]).snd.budget_states (BudgetTracker.get_scope_key exBudgetB2
            exRunC2.context.tenant_id exRunC2.context.strand_id
            exRunC2.context.workflow_id)).map
          (fun st' => st'.usage.total_cost))
        = some (exStateC2.usage.total_cost + exRunC2.total_cost)
    ∧ ((dictGet? (exTrackerC2.unregister_run "r1"
          [exBudgetB2]).snd.budget_states (BudgetTracker.get_scope_key exBudgetB2
            exRunC2.context.tenant_id exRunC2.context.strand_id
            exRunC2.context.workflow_id)).map
          (fun st' => st'.usage.total_runs))
        = some (exStateC2.usage.total_runs + 1)
    ∧ ((dictGet? (exTrackerC2.unregister_run "r1"
          [exBudgetB2]).snd.budget_states (BudgetTracker.get_scope_key exBudgetB2
            exRunC2.context.tenant_id exRunC2.context.strand_id
            exRunC2.context.workflow_id)).map
          (fun st' => st'.active_runs))
        = some (setDiscard exStateC2.active_runs "r1") := by
  have h := C2_end_run_commit exTrackerC2 "r1" exRunC2 [exBudgetB2] exBudgetB2
    exStateC2 rfl (by simp [exTrackerC2]) (List.mem_singleton.mpr rfl) (by simp)
    rfl
  obtain ⟨h1, h2, h3, h4⟩ := h
  obtain ⟨hc, hr, ha⟩ := h4 _ h3
  refine ⟨h1, h2, ?_, ?_, ?_⟩ <;> rw [h3]
  · exact congrArg some hc
  · exact congrArg some hr
  · exact congrArg some ha

/-! ### C5: registration and commit when enforcement is disabled -/

theorem registerStep_run_states (rs : RunState) (tr : BudgetTracker)
    (b : BudgetSpec) :
    (BudgetTracker.registerStep rs tr b).run_states = tr.run_states := by
  unfold BudgetTracker.registerStep
  cases hc : dictGet? tr.budget_states (BudgetTracker.get_scope_key b
    rs.context.tenant_id rs.context.strand_id rs.context.workflow_id) <;>
    simp [hc]

theorem registerFold_run_states (rs : RunState) :
    ∀ (budgets : List BudgetSpec) (tr : BudgetTracker),
    ((budgets.foldl (BudgetTracker.registerStep rs) tr).run_states)
      = tr.run_states := by
  intro budgets
  induction budgets with
  | nil => intro tr; rfl
  | cons b rest ih =>
      intro tr
      simp only [List.foldl_cons, ih, registerStep_run_states]

theorem register_run_lookup_self (tr : BudgetTracker) (rs : RunState)
    (budgets : List BudgetSpec) :
    dictGet? (tr.register_run rs budgets).run_states rs.context.run_id
      = some rs := by
  unfold BudgetTracker.register_run
  rw [registerFold_run_states]
  exact dictGet?_dictInsert_self tr.run_states rs.context.run_id rs

theorem unregisterStep_lookup_none (rs : RunState) (run_id : String)
    (tr : BudgetTracker) (b : BudgetSpec) (k : String)
    (h : dictGet? tr.budget_states k = none) :
    dictGet? (BudgetTracker.unregisterStep rs run_id tr b).budget_states k
      = none := by
  unfold BudgetTracker.unregisterStep
  cases hc : dictGet? tr.budget_states (BudgetTracker.get_scope_key b
    rs.context.tenant_id rs.context.strand_id rs.context.workflow_id) with
  | none => simpa [hc] using h
  | some st =>
      have hne : k ≠ BudgetTracker.get_scope_key b rs.context.tenant_id
          rs.context.strand_id rs.context.workflow_id := by
        intro he
        rw [he, hc] at h
        exact Option.noConfusion h
      simp [hc, dictGet?_dictInsert_ne _ _ _ _ hne, h]

theorem unregisterFold_lookup_none (rs : RunState) (run_id : String) :
    ∀ (budgets : List BudgetSpec) (tr : BudgetTracker) (k : String),
    dictGet? tr.budget_states k = none →
    dictGet? ((budgets.foldl (BudgetTracker.unregisterStep rs run_id) tr).budget_states) k
      = none := by
  intro budgets
  induction budgets with
  | nil => intro tr k h; exact h
  | cons b rest ih =>
      intro tr k h
      simp only [List.foldl_cons]
      exact ih _ k (unregisterStep_lookup_none rs run_id tr b k h)

/-- C5 counterexample: with enforcement disabled, a run is registered and
accrues cost 5, but ending it commits nothing: no period usage exists for
the matching budget afterwards (the budget-state map stays empty), so no
`PeriodUsage.total_cost` increased by the run's cost. -/
theorem C5_no_commit_counterexample :
    (dictGet? (CostGuard.applyEvents exGuardC5
        [HookEvent.runStart "t1" "s1" "w1" "r5" [] dtNow,
         HookEvent.afterModelCall "r5" exCostUsage]).budget_tracker.run_states
        "r5").map RunState.total_cost = some 5
    ∧ (CostGuard.applyEvents exGuardC5
        [HookEvent.runStart "t1" "s1" "w1" "r5" [] dtNow,
         HookEvent.afterModelCall "r5" exCostUsage,
         HookEvent.runEnd "r5" "completed"]).budget_tracker.budget_states = [] := by
  constructor
  · norm_num [CostGuard.applyEvents, CostGuard.applyEvent, CostGuard.on_run_start,
      CostGuard.after_model_call, exGuardC5, exEmptyGuard, exBudgetB2, mkBudget,
      PolicyStore.refresh, sortDescBy, insertDescBy, PolicyStore.get_budgets_for_context,
      BudgetSpec.matches_context, BudgetMatch.matches, BudgetTracker.register_run,
      BudgetTracker.registerStep, BudgetTracker.init, BudgetTracker.update_run_cost,
      dictGet?, dictInsert, exCostUsage, strTruthy, RunState.add_model_cost,
      RunState.init, dictGetD, List.filter]
    rw [if_neg (by decide : ¬ ("gpt-4o" = ""))]
  · norm_num [CostGuard.applyEvents, CostGuard.applyEvent, CostGuard.on_run_start,
      CostGuard.after_model_call, CostGuard.on_run_end, exGuardC5, exEmptyGuard,
      exBudgetB2, mkBudget, PolicyStore.refresh, sortDescBy, insertDescBy,
      PolicyStore.get_budgets_for_context, BudgetSpec.matches_context,
      BudgetMatch.matches, BudgetTracker.register_run, BudgetTracker.registerStep,
      BudgetTracker.init, BudgetTracker.update_run_cost, BudgetTracker.unregister_run,
      BudgetTracker.unregisterStep, dictGet?, dictInsert, dictRemove, exCostUsage,
      strTruthy, RunState.add_model_cost, RunState.init, dictGetD, List.filter]

/-- C5 (amended): with enforcement disabled, `admit_run` still registers
the run (the decision is permissive and the run state is created and
tracked); on `end_run`, however, totals are committed only to matching
budgets whose state is already cached, and a budget scope with no cached
state receives nothing (its key remains absent). -/
theorem C5_enforcement_off_registers (g : CostGuard)
    (tenant_id strand_id workflow_id run_id status : String)
    (md : List (String × String)) (now : DateTime)
    (henf : g.enable_budget_enforcement = false) :
    let res := g.on_run_start tenant_id strand_id workflow_id run_id md now
    res.fst.allowed = true
    ∧ dictGet? res.snd.budget_tracker.run_states run_id
        = some (RunState.init
            { tenant_id := tenant_id, strand_id := strand_id,
              workflow_id := workflow_id, run_id := run_id, metadata := md,
              started_at := now })
    ∧ (∀ (g2 : CostGuard) (k : String),
        dictGet? g2.budget_tracker.budget_states k = none →
        dictGet? (g2.on_run_end run_id status).budget_tracker.budget_states k
          = none) := by
  refine ⟨?_, ?_, ?_⟩
  · simp [CostGuard.on_run_start, henf, AdmissionDecision.mkAdmit]
  · simp only [CostGuard.on_run_start, henf, Bool.false_eq_true, not_false_iff,
      if_pos]
    exact register_run_lookup_self _ _ _
  · intro g2 k h
    unfold CostGuard.on_run_end BudgetTracker.unregister_run
    cases hr : dictGet? g2.budget_tracker.run_states run_id with
    | none => simpa [hr] using h
    | some rs =>
        simp only [hr]
        exact unregisterFold_lookup_none rs run_id _ _ k h

/-- Witness for C5 on the enforcement-off guard. -/
theorem C5_enforcement_off_registers_witness :
    (exGuardC5.on_run_start "t1" "s1" "w1" "r5" [] dtNow).fst.allowed = true
    ∧ dictGet? (exGuardC5.on_run_start "t1" "s1" "w1" "r5" []
        dtNow).snd.budget_tracker.run_states "r5"
        = some (RunState.init
            { tenant_id := "t1", strand_id := "s1", workflow_id := "w1",
              run_id := "r5", metadata := [], started_at := dtNow })
    ∧ dictGet? ((exGuardC5.on_run_start "t1" "s1" "w1" "r5" []
        dtNow).snd.on_run_end "r5" "completed").budget_tracker.budget_states
        "tenant:t1:b2" = none := by
  have h := C5_enforcement_off_registers exGuardC5 "t1" "s1" "w1" "r5"
    "completed" [] dtNow rfl
  obtain ⟨h1, h2, h3⟩ := h
  exact ⟨h1, h2, h3 _ "tenant:t1:b2" rfl⟩

/-! ### C8: budget matching and specificity ordering -/

theorem mem_insertDescBy {α : Type} (key : α → Nat) (x a : α) (l : List α) :
    a ∈ insertDescBy key x l ↔ a = x ∨ a ∈ l := by
  induction l with
  | nil => simp [insertDescBy]
  | cons y ys ih =>
      by_cases h : key x < key y
      · simp only [insertDescBy, if_pos h, List.mem_cons, ih]
        tauto
      · simp only [insertDescBy, if_neg h, List.mem_cons]

theorem insertDescBy_cons_of_le {α : Type} (key : α → Nat) (x : α) (l : List α)
    (h : ∀ z ∈ l, key z ≤ key x) : insertDescBy key x l = x :: l := by
  cases l with
  | nil => rfl
  | cons y ys =>
      have hy : ¬ key x < key y := not_lt.mpr (h y (List.mem_cons_self y ys))
      simp [insertDescBy, hy]

theorem pairwise_insertDescBy {α : Type} (key : α → Nat) (x : α) (l : List α)
    (h : l.Pairwise (fun a b => key b ≤ key a)) :
    (insertDescBy key x l).Pairwise (fun a b => key b ≤ key a) := by
  induction l with
  | nil => simp [insertDescBy]
  | cons y ys ih =>
      rcases List.pairwise_cons.mp h with ⟨hy, hys⟩
      by_cases hlt : key x < key y
      · rw [insertDescBy, if_pos hlt]
        refine List.pairwise_cons.mpr ⟨?_, ih hys⟩
        intro b hb
        rcases (mem_insertDescBy key x b ys).mp hb with hbx | hbys
        · subst hbx
          exact hlt.le
        · exact hy b hbys
      · rw [insertDescBy, if_neg hlt]
        refine List.pairwise_cons.mpr ⟨?_, h⟩
        intro b hb
        rcases List.mem_cons.mp hb with hby | hbys
        · subst hby
          exact not_lt.mp hlt
        · exact (hy b hbys).trans (not_lt.mp hlt)

theorem pairwise_sortDescBy {α : Type} (key : α → Nat) (l : List α) :
    (sortDescBy key l).Pairwise (fun a b => key b ≤ key a) := by
  induction l with
  | nil => simp [sortDescBy]
  | cons x xs ih => exact pairwise_insertDescBy key x _ ih

theorem filter_insertDescBy {α : Type} (key : α → Nat) (p : α → Bool) (x : α)
    (l : List α) (hs : l.Pairwise (fun a b => key b ≤ key a)) :
    (insertDescBy key x l).filter p
      = if p x then insertDescBy key x (l.filter p) else l.filter p := by
  induction l with
  | nil =>
      by_cases hpx : p x <;> simp [insertDescBy, List.filter, hpx]
  | cons y ys ih =>
      rcases List.pairwise_cons.mp hs with ⟨hy, hys⟩
      by_cases hlt : key x < key y
      · rw [insertDescBy, if_pos hlt]
        by_cases hpx : p x
        · by_cases hpy : p y
          · simp [List.filter_cons, hpy, ih hys, hpx, insertDescBy, hlt]
          · simp [List.filter_cons, hpy, ih hys, hpx]
        · by_cases hpy : p y <;>
            simp [List.filter_cons, hpy, ih hys, hpx]
      · rw [insertDescBy, if_neg hlt]
        by_cases hpx : p x
        · have hall : ∀ z ∈ (y :: ys).filter p, key z ≤ key x := by
            intro z hz
            have hz' := List.mem_of_mem_filter hz
            rcases List.mem_cons.mp hz' with hzy | hzys
            · subst hzy
              exact not_lt.mp hlt
            · exact (hy z hzys).trans (not_lt.mp hlt)
          rw [if_pos hpx, insertDescBy_cons_of_le key x _ hall,
            List.filter_cons, if_pos hpx]
        · simp [List.filter_cons, hpx]

theorem filter_sortDescBy {α : Type} (key : α → Nat) (p : α → Bool) (l : List α) :
    (sortDescBy key l).filter p = sortDescBy key (l.filter p) := by
  induction l with
  | nil => rfl
  | cons x xs ih =>
      have h1 : sortDescBy key (x :: xs) = insertDescBy key x (sortDescBy key xs) :=
        rfl
      rw [h1, filter_insertDescBy key p x _ (pairwise_sortDescBy key xs)]
      by_cases hpx : p x
      · simp [List.filter_cons, hpx, sortDescBy, ih]
      · simp [List.filter_cons, hpx, ih]

/-- C8: the budgets returned for a context are exactly the enabled,
pattern-matching budgets, arranged as the stable descending sort by
priority of the input order (so ties keep their input order); the returned
list is sorted by non-increasing priority; and the priority is the scope
weight (global 0, tenant 10, strand 20, workflow 30) plus the match
specificity (tenant +1, strand +2, workflow +4). -/
theorem C8_specificity_ordering (budget_data : List BudgetSpec)
    (routing_data : List RoutingPolicy)
    (tenant_id strand_id workflow_id : String) :
    (PolicyStore.refresh budget_data routing_data).get_budgets_for_context
        tenant_id strand_id workflow_id
      = sortDescBy BudgetSpec.get_priority
          (budget_data.filter
            (fun b => b.matches_context tenant_id strand_id workflow_id))
    ∧ ((PolicyStore.refresh budget_data routing_data).get_budgets_for_context
        tenant_id strand_id workflow_id).Pairwise
          (fun a b => b.get_priority ≤ a.get_priority)
    ∧ ∀ b : BudgetSpec, b.get_priority
        = (match b.scope with
           | BudgetScope.GLOBAL => 0
           | BudgetScope.TENANT => 10
           | BudgetScope.STRAND => 20
           | BudgetScope.WORKFLOW => 30)
          + ((if b.match_.tenant_id ≠ "*" then 1 else 0)
            + (if b.match_.strand_id ≠ "*" then 2 else 0)
            + (if b.match_.workflow_id ≠ "*" then 4 else 0)) := by
  refine ⟨?_, ?_, ?_⟩
  · simp only [PolicyStore.refresh, PolicyStore.get_budgets_for_context]
    exact filter_sortDescBy _ _ _
  · simp only [PolicyStore.refresh, PolicyStore.get_budgets_for_context]
    exact (pairwise_sortDescBy BudgetSpec.get_priority budget_data).filter _
  · intro b
    cases hb : b.scope <;>
      simp [BudgetSpec.get_priority, BudgetMatch.specificity_score, hb]

/-! ### C4: admission decision fields -/

theorem getOrCreate_cached_fresh (tr : BudgetTracker) (b : BudgetSpec)
    (tenant_id strand_id workflow_id : String) (now : DateTime) (st : BudgetState)
    (hc : dictGet? tr.budget_states
      (BudgetTracker.get_scope_key b tenant_id strand_id workflow_id) = some st)
    (hf : st.is_period_expired now = false) :
    tr.get_or_create_budget_state b tenant_id strand_id workflow_id now
      = (st, tr) := by
  simp [BudgetTracker.get_or_create_budget_state, hc, hf]

theorem budgetCachedFresh_elim (tr : BudgetTracker)
    (tenant_id strand_id workflow_id : String) (now : DateTime) (b : BudgetSpec)
    (h : budgetCachedFresh tr tenant_id strand_id workflow_id now b = true) :
    ∃ st, dictGet? tr.budget_states
        (BudgetTracker.get_scope_key b tenant_id strand_id workflow_id) = some st
      ∧ st.is_period_expired now = false ∧ st.budget = b := by
  unfold budgetCachedFresh at h
  cases hc : dictGet? tr.budget_states
      (BudgetTracker.get_scope_key b tenant_id strand_id workflow_id) with
  | none => rw [hc] at h; exact absurd h (by simp)
  | some st =>
      rw [hc] at h
      have h' : (! st.is_period_expired now && decide (st.budget = b)) = true := h
      rw [Bool.and_eq_true] at h'
      refine ⟨st, rfl, ?_, of_decide_eq_true h'.2⟩
      cases hx : st.is_period_expired now
      · rfl
      · rw [hx] at h'
        simp at h'

theorem check_limits_tracker_eq (tenant_id strand_id workflow_id : String)
    (now : DateTime) :
    ∀ (budgets : List BudgetSpec) (tr : BudgetTracker),
    allCachedFresh tr tenant_id strand_id workflow_id now budgets = true →
    (tr.check_budget_limits tenant_id strand_id workflow_id budgets now).snd
      = tr := by
  intro budgets
  induction budgets with
  | nil => intro tr _; rfl
  | cons b rest ih =>
      intro tr h
      simp only [allCachedFresh, List.all_cons, Bool.and_eq_true] at h
      obtain ⟨st, hc, hf, _⟩ := budgetCachedFresh_elim tr tenant_id strand_id
        workflow_id now b h.1
      have hrest : allCachedFresh tr tenant_id strand_id workflow_id now rest
          = true := h.2
      unfold BudgetTracker.check_budget_limits
      rw [getOrCreate_cached_fresh tr b tenant_id strand_id workflow_id now st hc hf]
      cases hcs : BudgetTracker.checkStep b st <;>
        simp [hcs, ih tr hrest]

theorem registerStep_cachedFresh (rs : RunState)
    (tenant_id strand_id workflow_id : String) (now : DateTime) (b : BudgetSpec)
    (tr : BudgetTracker) (b2 : BudgetSpec)
    (h : budgetCachedFresh tr tenant_id strand_id workflow_id now b = true) :
    budgetCachedFresh (BudgetTracker.registerStep rs tr b2) tenant_id strand_id
      workflow_id now b = true := by
  obtain ⟨st, hc, hf, hbud⟩ := budgetCachedFresh_elim tr tenant_id strand_id
    workflow_id now b h
  unfold BudgetTracker.registerStep
  cases hc2 : dictGet? tr.budget_states (BudgetTracker.get_scope_key b2
      rs.context.tenant_id rs.context.strand_id rs.context.workflow_id) with
  | none =>
      simp only [hc2]
      exact h
  | some st2 =>
      by_cases hkk : BudgetTracker.get_scope_key b tenant_id strand_id workflow_id
          = BudgetTracker.get_scope_key b2 rs.context.tenant_id
            rs.context.strand_id rs.context.workflow_id
      · have hst2 : st2 = st := by
          rw [hkk, hc2] at hc
          exact Option.some.inj hc
        subst hst2
        simp only [budgetCachedFresh, hc2, hkk]
        rw [dictGet?_dictInsert_self]
        have hf' : decide (st2.usage.period_end ≤ now) = false := hf
        simp [BudgetState.is_period_expired, hf', hbud]
      · simp only [budgetCachedFresh, hc2]
        rw [dictGet?_dictInsert_ne _ _ _ _ hkk, hc]
        simp [hf, hbud]

theorem registerFold_cachedFresh (rs : RunState)
    (tenant_id strand_id workflow_id : String) (now : DateTime) (b : BudgetSpec) :
    ∀ (budgets2 : List BudgetSpec) (tr : BudgetTracker),
    budgetCachedFresh tr tenant_id strand_id workflow_id now b = true →
    budgetCachedFresh (budgets2.foldl (BudgetTracker.registerStep rs) tr)
      tenant_id strand_id workflow_id now b = true := by
  intro budgets2
  induction budgets2 with
  | nil => intro tr h; exact h
  | cons b2 rest ih =>
      intro tr h
      simp only [List.foldl_cons]
      exact ih _ (registerStep_cachedFresh rs tenant_id strand_id workflow_id now
        b tr b2 h)

theorem register_run_allCachedFresh (rs : RunState)
    (tenant_id strand_id workflow_id : String) (now : DateTime)
    (budgets budgets2 : List BudgetSpec) (tr : BudgetTracker)
    (h : allCachedFresh tr tenant_id strand_id workflow_id now budgets = true) :
    allCachedFresh (tr.register_run rs budgets2) tenant_id strand_id workflow_id
      now budgets = true := by
  unfold allCachedFresh at h ⊢
  rw [List.all_eq_true] at h ⊢
  intro b hb
  have hb' := h b hb
  have hmid : budgetCachedFresh
      { tr with run_states := dictInsert tr.run_states rs.context.run_id rs }
      tenant_id strand_id workflow_id now b = true := hb'
  exact registerFold_cachedFresh rs tenant_id strand_id workflow_id now b
    budgets2 _ hmid

theorem admitScanStep_cached (tenant_id strand_id workflow_id : String)
    (now : DateTime) (b : BudgetSpec) (tr : BudgetTracker) (st : BudgetState)
    (rem util : Option Money) (ws : List String)
    (hc : dictGet? tr.budget_states
      (BudgetTracker.get_scope_key b tenant_id strand_id workflow_id) = some st)
    (hf : st.is_period_expired now = false)
    (hbud : st.budget = b) :
    (CostGuard.admitScanStep tenant_id strand_id workflow_id now
        { tracker := tr, remaining := rem, utilization := util, warnings := ws }
        b).tracker = tr
    ∧ ((CostGuard.admitScanStep tenant_id strand_id workflow_id now
        { tracker := tr, remaining := rem, utilization := util, warnings := ws }
        b).remaining,
       (CostGuard.admitScanStep tenant_id strand_id workflow_id now
        { tracker := tr, remaining := rem, utilization := util, warnings := ws }
        b).utilization)
      = runStartScanAux [st] (rem, util) := by
  subst hbud
  unfold CostGuard.admitScanStep
  rw [getOrCreate_cached_fresh tr st.budget tenant_id strand_id workflow_id now
    st hc hf]
  rcases hta : st.budget.get_current_threshold_action st.utilization with _ | act
  · by_cases hq : qTruthy st.budget.max_cost = true
    · rcases rem with _ | rem0
      · simp [runStartScanAux, hta, hq]
      · rcases hrb : st.remaining_budget with _ | rb
        · simp [runStartScanAux, hta, hq, hrb]
        · by_cases hcond : rb ≠ 0 ∧ rb < rem0
          · simp [runStartScanAux, hta, hq, hrb, hcond]
          · simp [runStartScanAux, hta, hq, hrb, hcond]
    · simp [runStartScanAux, hta, hq]
  · by_cases hq : qTruthy st.budget.max_cost = true
    · rcases rem with _ | rem0
      · simp [runStartScanAux, hta, hq, apply_ite]
      · rcases hrb : st.remaining_budget with _ | rb
        · simp [runStartScanAux, hta, hq, hrb, apply_ite]
        · by_cases hcond : rb ≠ 0 ∧ rb < rem0
          · simp [runStartScanAux, hta, hq, hrb, hcond, apply_ite]
          · simp [runStartScanAux, hta, hq, hrb, hcond, apply_ite]
    · simp [runStartScanAux, hta, hq, apply_ite]

theorem runStartScanAux_cons (st : BudgetState) (l : List BudgetState)
    (acc : Option Money × Option Money) :
    runStartScanAux (st :: l) acc = runStartScanAux l (runStartScanAux [st] acc) := by
  simp only [runStartScanAux]

theorem admitScanFold_pure (tenant_id strand_id workflow_id : String)
    (now : DateTime) :
    ∀ (budgets : List BudgetSpec) (tr : BudgetTracker) (rem util : Option Money)
      (ws : List String),
    allCachedFresh tr tenant_id strand_id workflow_id now budgets = true →
    (budgets.foldl (CostGuard.admitScanStep tenant_id strand_id workflow_id now)
        { tracker := tr, remaining := rem, utilization := util,
          warnings := ws }).tracker = tr
    ∧ ((budgets.foldl (CostGuard.admitScanStep tenant_id strand_id workflow_id now)
        { tracker := tr, remaining := rem, utilization := util,
          warnings := ws }).remaining,
       (budgets.foldl (CostGuard.admitScanStep tenant_id strand_id workflow_id now)
        { tracker := tr, remaining := rem, utilization := util,
          warnings := ws }).utilization)
      = runStartScanAux
          (cachedStates tr tenant_id strand_id workflow_id budgets) (rem, util) := by
  intro budgets
  induction budgets with
  | nil => intro tr rem util ws _; exact ⟨rfl, rfl⟩
  | cons b rest ih =>
      intro tr rem util ws h
      simp only [allCachedFresh, List.all_cons, Bool.and_eq_true] at h
      obtain ⟨st, hc, hf, hbud⟩ := budgetCachedFresh_elim tr tenant_id strand_id
        workflow_id now b h.1
      obtain ⟨htr, hru⟩ := admitScanStep_cached tenant_id strand_id workflow_id
        now b tr st rem util ws hc hf hbud
      set step := CostGuard.admitScanStep tenant_id strand_id workflow_id now
        { tracker := tr, remaining := rem, utilization := util, warnings := ws } b
        with hstep
      have hacc : step
          = { tracker := tr, remaining := step.remaining,
              utilization := step.utilization, warnings := step.warnings } := by
        rw [← htr]
      have hrest : allCachedFresh tr tenant_id strand_id workflow_id now rest
          = true := h.2
      obtain ⟨ihtr, ihru⟩ := ih tr step.remaining step.utilization step.warnings
        hrest
      have hcached : cachedStates tr tenant_id strand_id workflow_id (b :: rest)
          = st :: cachedStates tr tenant_id strand_id workflow_id rest := by
        simp [cachedStates, hc]
      constructor
      · simp only [List.foldl_cons, ← hstep]
        rw [hacc]
        exact ihtr
      · simp only [List.foldl_cons, ← hstep]
        rw [hacc]
        rw [ihru, hcached, runStartScanAux_cons, ← hru]

/-- C4 (amended): for an admitted run under enforcement (with every
applicable budget's state cached and fresh), the decision's
`remaining_budget` and `budget_utilization` are produced by the code's
joint scan (`runStartScanAux`) over the budget states in specificity
order: both fields always move together, the scan replaces its value only
when the candidate's remaining budget is nonzero and strictly smaller, and
`budget_utilization` is the utilization of the budget that supplied
`remaining_budget` — not the minimum remaining over all `max_cost` budgets
paired with the maximum utilization. -/
theorem C4_admission_fields (g : CostGuard)
    (tenant_id strand_id workflow_id run_id : String)
    (md : List (String × String)) (now : DateTime)
    (henf : g.enable_budget_enforcement = true)
    (hfresh : allCachedFresh g.budget_tracker tenant_id strand_id workflow_id now
      (g.policy_store.get_budgets_for_context tenant_id strand_id workflow_id)
      = true)
    (hadm : (g.on_run_start tenant_id strand_id workflow_id run_id md now).fst.allowed
      = true) :
    ((g.on_run_start tenant_id strand_id workflow_id run_id md now).fst.remaining_budget,
     (g.on_run_start tenant_id strand_id workflow_id run_id md now).fst.budget_utilization)
      = runStartScanAux
          (cachedStates
            (g.on_run_start tenant_id strand_id workflow_id run_id md
              now).snd.budget_tracker
            tenant_id strand_id workflow_id
            (g.policy_store.get_budgets_for_context tenant_id strand_id workflow_id))
          (none, none) := by
  have hcheck : (g.budget_tracker.check_budget_limits tenant_id strand_id
      workflow_id
      (g.policy_store.get_budgets_for_context tenant_id strand_id workflow_id)
      now).snd = g.budget_tracker :=
    check_limits_tracker_eq tenant_id strand_id workflow_id now _ _ hfresh
  unfold CostGuard.on_run_start at hadm ⊢
  simp only [henf, not_true_eq_false, if_false, Bool.false_eq_true, hcheck]
    at hadm ⊢
  cases hfind : List.find?
      (fun e => decide (e.1.on_hard_limit_exceeded = HardLimitAction.REJECT_NEW_RUNS))
      (g.budget_tracker.check_budget_limits tenant_id strand_id workflow_id
        (g.policy_store.get_budgets_for_context tenant_id strand_id workflow_id)
        now).1 with
  | some e =>
      rw [hfind] at hadm
      simp [AdmissionDecision.reject] at hadm
  | none =>
      have hfreshR := register_run_allCachedFresh
        (RunState.init
          { tenant_id := tenant_id, strand_id := strand_id,
            workflow_id := workflow_id, run_id := run_id, metadata := md,
            started_at := now })
        tenant_id strand_id workflow_id now
        (g.policy_store.get_budgets_for_context tenant_id strand_id workflow_id)
        (g.policy_store.get_budgets_for_context tenant_id strand_id workflow_id)
        g.budget_tracker hfresh
      obtain ⟨htr, hru⟩ := admitScanFold_pure tenant_id strand_id workflow_id now
        (g.policy_store.get_budgets_for_context tenant_id strand_id workflow_id)
        (g.budget_tracker.register_run
          (RunState.init
            { tenant_id := tenant_id, strand_id := strand_id,
              workflow_id := workflow_id, run_id := run_id, metadata := md,
              started_at := now })
          (g.policy_store.get_budgets_for_context tenant_id strand_id workflow_id))
        none none [] hfreshR
      simp only [AdmissionDecision.mkAdmit, htr, hru]

/-- C4 counterexample: with budgets `b2` (max 100, spent 0) and `b1`
(max 10, spent 10, soft) both applicable, the admission decision reports
`remaining_budget = 100` and `budget_utilization = 0`, while the minimum
remaining over `max_cost` budgets is 0 and the maximum utilization is 1:
the zero remaining budget is skipped as falsy, and the utilization is the
one paired with the chosen remaining, not the maximum. -/
theorem C4_minmax_counterexample :
    (exGuardC4.on_run_start "t1" "s1" "w1" "r1" [] dtNow).fst.allowed = true
    ∧ (exGuardC4.on_run_start "t1" "s1" "w1" "r1" [] dtNow).fst.remaining_budget
        = some 100
    ∧ (exGuardC4.on_run_start "t1" "s1" "w1" "r1" [] dtNow).fst.budget_utilization
        = some 0
    ∧ specMinRemaining
        (cachedStates (exGuardC4.on_run_start "t1" "s1" "w1" "r1" []
            dtNow).snd.budget_tracker "t1" "s1" "w1"
          (exGuardC4.policy_store.get_budgets_for_context "t1" "s1" "w1"))
        = some 0
    ∧ specMaxUtilization
        (cachedStates (exGuardC4.on_run_start "t1" "s1" "w1" "r1" []
            dtNow).snd.budget_tracker "t1" "s1" "w1"
          (exGuardC4.policy_store.get_budgets_for_context "t1" "s1" "w1"))
        = some 1
    ∧ some (100 : Money) ≠ some 0
    ∧ some (0 : Money) ≠ some 1 := by
  refine ⟨?_, ?_, ?_, ?_, ?_, by norm_num, by norm_num⟩ <;>
    norm_num +decide [CostGuard.on_run_start, exGuardC4, exBudgetB1, exBudgetB2,
      exStateB1, exStateB2, mkBudget, PolicyStore.refresh, sortDescBy,
      insertDescBy, BudgetSpec.get_priority, BudgetMatch.specificity_score,
      PolicyStore.get_budgets_for_context, BudgetSpec.matches_context,
      BudgetMatch.matches, BudgetTracker.check_budget_limits,
      BudgetTracker.checkStep, BudgetTracker.get_or_create_budget_state,
      BudgetTracker.get_scope_key, dictGet?, dictInsert,
      BudgetState.is_period_expired, BudgetState.utilization,
      BudgetState.remaining_budget, BudgetState.concurrent_runs, qTruthy,
      natTruthy, PeriodUsage.init, BudgetTracker.register_run,
      BudgetTracker.registerStep, setAdd, CostGuard.admitScanStep,
      BudgetSpec.get_current_threshold_action, AdmissionDecision.mkAdmit,
      AdmissionDecision.reject, List.filter, List.find?, dtNow, dtStart, dtFar,
      DateTime.toMicro, daysFromCivil, microPerDay, microPerHour, microPerMinute,
      microPerSecond, DateTime.le, cachedStates, specMinRemaining,
      specMaxUtilization, List.filterMap]

/-- Witness for C4 on the two-budget fixture: the decision fields equal
the joint scan over the cached states. -/
theorem C4_admission_fields_witness :
    ((exGuardC4.on_run_start "t1" "s1" "w1" "r1" [] dtNow).fst.remaining_budget,
     (exGuardC4.on_run_start "t1" "s1" "w1" "r1" [] dtNow).fst.budget_utilization)
      = runStartScanAux
          (cachedStates
            (exGuardC4.on_run_start "t1" "s1" "w1" "r1" [] dtNow).snd.budget_tracker
            "t1" "s1" "w1"
            (exGuardC4.policy_store.get_budgets_for_context "t1" "s1" "w1"))
          (none, none) :=
  C4_admission_fields exGuardC4 "t1" "s1" "w1" "r1" [] dtNow rfl (by decide)
    (by norm_num +decide [CostGuard.on_run_start, exGuardC4, exBudgetB1, exBudgetB2,
      exStateB1, exStateB2, mkBudget, PolicyStore.refresh, sortDescBy,
      insertDescBy, BudgetSpec.get_priority, BudgetMatch.specificity_score,
      PolicyStore.get_budgets_for_context, BudgetSpec.matches_context,
      BudgetMatch.matches, BudgetTracker.check_budget_limits,
      BudgetTracker.checkStep, BudgetTracker.get_or_create_budget_state,
      BudgetTracker.get_scope_key, dictGet?, dictInsert,
      BudgetState.is_period_expired, BudgetState.utilization,
      BudgetState.remaining_budget, BudgetState.concurrent_runs, qTruthy,
      natTruthy, PeriodUsage.init, BudgetTracker.register_run,
      BudgetTracker.registerStep, setAdd, CostGuard.admitScanStep,
      BudgetSpec.get_current_threshold_action, AdmissionDecision.mkAdmit,
      AdmissionDecision.reject, List.filter, List.find?, dtNow, dtStart, dtFar,
      DateTime.toMicro, daysFromCivil, microPerDay, microPerHour, microPerMinute,
      microPerSecond, DateTime.le])

/-! ### C1: the run cost ledger invariant -/

theorem mem_dictInsert {α : Type} (m : List (String × α)) (k : String) (v : α)
    (kv : String × α) (h : kv ∈ dictInsert m k v) : kv = (k, v) ∨ kv ∈ m := by
  induction m with
  | nil => simpa [dictInsert] using h
  | cons kv2 rest ih =>
      by_cases hk : kv2.fst = k
      · rw [dictInsert, if_pos hk] at h
        rcases List.mem_cons.mp h with he | hm
        · exact Or.inl he
        · exact Or.inr (List.mem_cons_of_mem _ hm)
      · rw [dictInsert, if_neg hk] at h
        rcases List.mem_cons.mp h with he | hm
        · exact Or.inr (he ▸ List.mem_cons_self _ _)
        · rcases ih hm with he2 | hm2
          · exact Or.inl he2
          · exact Or.inr (List.mem_cons_of_mem _ hm2)

theorem mem_dictRemove {α : Type} (m : List (String × α)) (k : String)
    (kv : String × α) (h : kv ∈ dictRemove m k) : kv ∈ m := by
  induction m with
  | nil => simp [dictRemove] at h
  | cons kv2 rest ih =>
      by_cases hk : kv2.fst = k
      · rw [dictRemove, if_pos hk] at h
        exact List.mem_cons_of_mem _ h
      · rw [dictRemove, if_neg hk] at h
        rcases List.mem_cons.mp h with he | hm
        · exact he ▸ List.mem_cons_self _ _
        · exact List.mem_cons_of_mem _ (ih hm)

theorem dictGet?_mem {α : Type} (m : List (String × α)) (k : String) (v : α)
    (h : dictGet? m k = some v) : (k, v) ∈ m := by
  induction m with
  | nil => simp [dictGet?] at h
  | cons kv rest ih =>
      obtain ⟨a, b⟩ := kv
      by_cases hk : a = k
      · have hb : b = v := by simpa [dictGet?, hk] using h
        subst hk hb
        exact List.mem_cons_self _ _
      · have h' : dictGet? rest k = some v := by simpa [dictGet?, hk] using h
        exact List.mem_cons_of_mem _ (ih h')

theorem costInvariant_init (ctx : RunContext) :
    (RunState.init ctx).costInvariant := by
  simp [RunState.init, RunState.costInvariant, sumVals]

theorem costInvariant_add_model (rs : RunState) (m : String) (c : Money)
    (it ot : Nat) (h : rs.costInvariant) :
    (rs.add_model_cost m c it ot).costInvariant := by
  simp only [RunState.costInvariant, RunState.add_model_cost] at h ⊢
  rw [sumVals_dictInsert_add, h]
  ring

theorem costInvariant_add_tool (rs : RunState) (t : String) (c : Money)
    (h : rs.costInvariant) : (rs.add_tool_cost t c).costInvariant := by
  simp only [RunState.costInvariant, RunState.add_tool_cost] at h ⊢
  rw [sumVals_dictInsert_add, h]
  ring

theorem trackerInv_of_run_states_eq (tr tr' : BudgetTracker)
    (h : tr'.run_states = tr.run_states) (hi : TrackerInv tr) : TrackerInv tr' := by
  unfold TrackerInv at hi ⊢
  rw [h]
  exact hi

theorem trackerInv_update_run_cost (tr : BudgetTracker) (run_id : String)
    (mn : Option String) (mc : Money) (it ot : Nat) (tn : Option String)
    (tc : Money) (h : TrackerInv tr) :
    TrackerInv (tr.update_run_cost run_id mn mc it ot tn tc) := by
  unfold BudgetTracker.update_run_cost
  cases hrs : dictGet? tr.run_states run_id with
  | none => simpa [hrs] using h
  | some rs =>
      simp only [hrs]
      intro kv hkv
      have hrs_inv : rs.costInvariant := h (run_id, rs) (dictGet?_mem _ _ _ hrs)
      have hmid : (if strTruthy mn = true ∧ mc > 0 then
          rs.add_model_cost (mn.getD "") mc it ot else rs).costInvariant := by
        by_cases hcond : strTruthy mn = true ∧ mc > 0
        · rw [if_pos hcond]
          exact costInvariant_add_model rs _ mc it ot hrs_inv
        · rw [if_neg hcond]
          exact hrs_inv
      have hfin : (if strTruthy tn = true then
          (if strTruthy mn = true ∧ mc > 0 then
            rs.add_model_cost (mn.getD "") mc it ot else rs).add_tool_cost
              (tn.getD "") tc
          else (if strTruthy mn = true ∧ mc > 0 then
            rs.add_model_cost (mn.getD "") mc it ot else rs)).costInvariant := by
        by_cases hcond : strTruthy tn = true
        · rw [if_pos hcond]
          exact costInvariant_add_tool _ _ tc hmid
        · rw [if_neg hcond]
          exact hmid
      rcases mem_dictInsert _ _ _ _ hkv with he | hm
      · rw [he]
        exact hfin
      · exact h kv hm

theorem getOrCreate_run_states (tr : BudgetTracker) (b : BudgetSpec)
    (tenant_id strand_id workflow_id : String) (now : DateTime) :
    (tr.get_or_create_budget_state b tenant_id strand_id workflow_id
      now).snd.run_states = tr.run_states := by
  unfold BudgetTracker.get_or_create_budget_state
  cases hc : dictGet? tr.budget_states
      (BudgetTracker.get_scope_key b tenant_id strand_id workflow_id) with
  | none => simp [hc]
  | some st =>
      by_cases hf : st.is_period_expired now = true <;> simp [hc, hf]

theorem checkFold_run_states (tenant_id strand_id workflow_id : String)
    (now : DateTime) :
    ∀ (budgets : List BudgetSpec) (tr : BudgetTracker),
    (tr.check_budget_limits tenant_id strand_id workflow_id budgets
      now).snd.run_states = tr.run_states := by
  intro budgets
  induction budgets with
  | nil => intro tr; rfl
  | cons b rest ih =>
      intro tr
      unfold BudgetTracker.check_budget_limits
      cases hcs : BudgetTracker.checkStep b
          (tr.get_or_create_budget_state b tenant_id strand_id workflow_id
            now).fst <;>
        simp [hcs, ih, getOrCreate_run_states]

theorem register_run_run_states (tr : BudgetTracker) (rs : RunState)
    (budgets : List BudgetSpec) :
    (tr.register_run rs budgets).run_states
      = dictInsert tr.run_states rs.context.run_id rs := by
  unfold BudgetTracker.register_run
  rw [registerFold_run_states]

theorem admitScanStep_run_states (tenant_id strand_id workflow_id : String)
    (now : DateTime) (acc : AdmitScan) (b : BudgetSpec) :
    (CostGuard.admitScanStep tenant_id strand_id workflow_id now
      acc b).tracker.run_states = acc.tracker.run_states := by
  unfold CostGuard.admitScanStep
  simp only []
  split <;> split_ifs <;> simp [getOrCreate_run_states]

theorem admitScanFold_run_states (tenant_id strand_id workflow_id : String)
    (now : DateTime) :
    ∀ (budgets : List BudgetSpec) (acc : AdmitScan),
    ((budgets.foldl (CostGuard.admitScanStep tenant_id strand_id workflow_id now)
      acc).tracker).run_states = acc.tracker.run_states := by
  intro budgets
  induction budgets with
  | nil => intro acc; rfl
  | cons b rest ih =>
      intro acc
      simp only [List.foldl_cons, ih, admitScanStep_run_states]

theorem routeScanStep_run_states (tenant_id strand_id workflow_id : String)
    (now : DateTime) (acc : RouteScan) (b : BudgetSpec) :
    (CostGuard.routeScanStep tenant_id strand_id workflow_id now
      acc b).tracker.run_states = acc.tracker.run_states := by
  unfold CostGuard.routeScanStep
  simp [getOrCreate_run_states]

theorem routeScanFold_run_states (tenant_id strand_id workflow_id : String)
    (now : DateTime) :
    ∀ (budgets : List BudgetSpec) (acc : RouteScan),
    ((budgets.foldl (CostGuard.routeScanStep tenant_id strand_id workflow_id now)
      acc).tracker).run_states = acc.tracker.run_states := by
  intro budgets
  induction budgets with
  | nil => intro acc; rfl
  | cons b rest ih =>
      intro acc
      simp only [List.foldl_cons, ih, routeScanStep_run_states]

theorem iterEnforceLoop_run_states (tenant_id strand_id workflow_id : String)
    (now : DateTime) :
    ∀ (budgets : List BudgetSpec) (tr : BudgetTracker) (ws : List String),
    (match CostGuard.iterEnforceLoop tenant_id strand_id workflow_id now tr ws
        budgets with
     | Sum.inl p => p.snd.run_states
     | Sum.inr p => p.fst.run_states) = tr.run_states := by
  intro budgets
  induction budgets with
  | nil => intro tr ws; rfl
  | cons b rest ih =>
      intro tr ws
      unfold CostGuard.iterEnforceLoop
      by_cases hcond : b.is_hard_limit_exceeded
          (tr.get_or_create_budget_state b tenant_id strand_id workflow_id
            now).fst.utilization = true
          ∧ b.on_hard_limit_exceeded = HardLimitAction.HALT_RUN
      · simp [hcond, getOrCreate_run_states]
      · simp only [hcond, if_false]
        rw [← getOrCreate_run_states tr b tenant_id strand_id workflow_id now]
        exact ih _ _

theorem estimateLoop_run_states (tenant_id strand_id workflow_id : String)
    (now : DateTime) (estimated_cost : Money) :
    ∀ (budgets : List BudgetSpec) (tr : BudgetTracker) (ws : List String),
    (CostGuard.estimateLoop tenant_id strand_id workflow_id now estimated_cost
      budgets tr ws).fst.run_states = tr.run_states := by
  intro budgets
  induction budgets with
  | nil => intro tr ws; rfl
  | cons b rest ih =>
      intro tr ws
      unfold CostGuard.estimateLoop
      rw [ih]
      exact getOrCreate_run_states tr b tenant_id strand_id workflow_id now

theorem trackerInv_register_run (tr : BudgetTracker) (rs : RunState)
    (budgets : List BudgetSpec) (h : TrackerInv tr) (hrs : rs.costInvariant) :
    TrackerInv (tr.register_run rs budgets) := by
  intro kv hkv
  rw [register_run_run_states] at hkv
  rcases mem_dictInsert _ _ _ _ hkv with he | hm
  · rw [he]
    exact hrs
  · exact h kv hm

theorem trackerInv_unregister_run (tr : BudgetTracker) (run_id : String)
    (budgets : List BudgetSpec) (h : TrackerInv tr) :
    TrackerInv (tr.unregister_run run_id budgets).snd := by
  unfold BudgetTracker.unregister_run
  cases hr : dictGet? tr.run_states run_id with
  | none => simpa [hr] using h
  | some rs =>
      simp only [hr]
      intro kv hkv
      rw [unregisterFold_run_states] at hkv
      exact h kv (mem_dictRemove _ _ _ hkv)

theorem trackerInv_on_run_start (g : CostGuard)
    (tenant_id strand_id workflow_id run_id : String)
    (md : List (String × String)) (now : DateTime)
    (h : TrackerInv g.budget_tracker) :
    TrackerInv (g.on_run_start tenant_id strand_id workflow_id run_id md
      now).snd.budget_tracker := by
  unfold CostGuard.on_run_start
  by_cases henf : g.enable_budget_enforcement = true
  · simp only [henf, not_true_eq_false, if_false, Bool.false_eq_true]
    cases hfind : List.find?
        (fun e => decide (e.1.on_hard_limit_exceeded = HardLimitAction.REJECT_NEW_RUNS))
        (g.budget_tracker.check_budget_limits tenant_id strand_id workflow_id
          (g.policy_store.get_budgets_for_context tenant_id strand_id workflow_id)
          now).1 with
    | some e =>
        simp only [hfind]
        exact trackerInv_of_run_states_eq _ _
          (checkFold_run_states tenant_id strand_id workflow_id now _ _) h
    | none =>
        simp only [hfind]
        refine trackerInv_of_run_states_eq _ _
          (admitScanFold_run_states tenant_id strand_id workflow_id now _ _) ?_
        refine trackerInv_register_run _ _ _ ?_ (costInvariant_init _)
        exact trackerInv_of_run_states_eq _ _
          (checkFold_run_states tenant_id strand_id workflow_id now _ _) h
  · have henf' : g.enable_budget_enforcement = false := by
      cases hb : g.enable_budget_enforcement
      · rfl
      · exact absurd hb henf
    simp only [henf', Bool.false_eq_true, not_false_iff, if_pos]
    exact trackerInv_register_run _ _ _ h (costInvariant_init _)

theorem trackerInv_on_run_end (g : CostGuard) (run_id status : String)
    (h : TrackerInv g.budget_tracker) :
    TrackerInv (g.on_run_end run_id status).budget_tracker := by
  unfold CostGuard.on_run_end
  exact trackerInv_unregister_run _ _ _ h

theorem before_iteration_run_states (g : CostGuard) (run_id : String)
    (iteration_idx : Nat) (now : DateTime) :
    ((g.before_iteration run_id iteration_idx now).snd.fst).budget_tracker.run_states
      = g.budget_tracker.run_states := by
  unfold CostGuard.before_iteration
  cases hr : g.budget_tracker.get_run_state run_id with
  | none => rfl
  | some rs =>
      simp only [hr]
      cases hfind : ((dictGet? g.run_budgets run_id).getD []).find? (fun b =>
          decide (iteration_idx ≥ (b.constraints.max_iterations_per_run).getD
            g.default_max_iterations_per_run)) with
      | some b => simp [hfind]
      | none =>
          simp only [hfind]
          by_cases henf : g.enable_budget_enforcement = true
          · simp only [henf, if_true]
            have hloop := iterEnforceLoop_run_states rs.context.tenant_id
              rs.context.strand_id rs.context.workflow_id now
              ((dictGet? g.run_budgets run_id).getD []) g.budget_tracker []
            cases hres : CostGuard.iterEnforceLoop rs.context.tenant_id
                rs.context.strand_id rs.context.workflow_id now g.budget_tracker
                [] ((dictGet? g.run_budgets run_id).getD []) with
            | inl p =>
                rw [hres] at hloop
                simp only [hres]
                exact hloop
            | inr p =>
                rw [hres] at hloop
                simp only [hres]
                exact hloop
          · have henf' : g.enable_budget_enforcement = false := by
              cases hb : g.enable_budget_enforcement
              · rfl
              · exact absurd hb henf
            simp [henf']

theorem before_model_call_run_states (g : CostGuard)
    (run_id model_name stage : String) (est : Nat) (now : DateTime) :
    ((g.before_model_call run_id model_name stage est
      now).snd.fst).budget_tracker.run_states
      = g.budget_tracker.run_states := by
  unfold CostGuard.before_model_call
  cases hr : g.budget_tracker.get_run_state run_id with
  | none => rfl
  | some rs =>
      simp only [hr]
      have hrouted : ∀ (routed : String × Option Int × Bool × String × BudgetTracker),
          routed.snd.snd.snd.snd.run_states = g.budget_tracker.run_states →
          (match CostGuard.tokenLimitLoop rs
              ((dictGet? g.run_budgets run_id).getD []) routed.snd.fst with
           | Sum.inl reason =>
              ((ModelDecision.reject reason,
                { g with budget_tracker := routed.snd.snd.snd.snd }, ([] : List String)) :
                ModelDecision × CostGuard × List String)
           | Sum.inr max_tokens =>
              let ew :=
                if est > 0 ∧ g.enable_budget_enforcement then
                  CostGuard.estimateLoop rs.context.tenant_id rs.context.strand_id
                    rs.context.workflow_id now
                    (g.pricing_table.estimate_model_cost routed.fst est 0)
                    ((dictGet? g.run_budgets run_id).getD [])
                    routed.snd.snd.snd.snd []
                else (routed.snd.snd.snd.snd, [])
              if routed.snd.snd.fst then
                (ModelDecision.downgrade model_name routed.fst
                  routed.snd.snd.snd.fst max_tokens,
                 { g with budget_tracker := ew.fst }, [])
              else
                (ModelDecision.allow routed.fst max_tokens ew.snd,
                 { g with budget_tracker := ew.fst },
                 [])).snd.fst.budget_tracker.run_states
            = g.budget_tracker.run_states := by
        intro routed hpres
        cases htok : CostGuard.tokenLimitLoop rs
            ((dictGet? g.run_budgets run_id).getD []) routed.snd.fst with
        | inl reason => simpa using hpres
        | inr mt =>
            by_cases hcond : est > 0 ∧ g.enable_budget_enforcement = true
            · by_cases hdg : routed.snd.snd.fst = true <;>
                simp [hcond, hdg, estimateLoop_run_states, hpres]
            · by_cases hdg : routed.snd.snd.fst = true <;>
                simp [hcond, hdg, hpres]
      by_cases hrouting : g.enable_routing = true
      · rw [if_pos hrouting]
        cases hpol : g.policy_store.get_routing_policy rs.context.tenant_id
            rs.context.strand_id rs.context.workflow_id with
        | none => exact hrouted (model_name, none, false, "", g.budget_tracker) rfl
        | some policy =>
            refine hrouted _ ?_
            exact routeScanFold_run_states rs.context.tenant_id
              rs.context.strand_id rs.context.workflow_id now _ _
      · rw [if_neg hrouting]
        exact hrouted (model_name, none, false, "", g.budget_tracker) rfl

theorem before_tool_call_run_states (g : CostGuard) (run_id tool_name : String) :
    ((g.before_tool_call run_id tool_name).snd.fst).budget_tracker.run_states
      = g.budget_tracker.run_states := by
  unfold CostGuard.before_tool_call
  cases hr : g.budget_tracker.get_run_state run_id with
  | none => rfl
  | some rs =>
      simp only [hr]
      cases hfind : ((dictGet? g.run_budgets run_id).getD []).find? (fun b =>
          decide (rs.total_tool_calls ≥ (b.constraints.max_tool_calls_per_run).getD
            g.default_max_tool_calls_per_run)) with
      | some b => simp [hfind]
      | none => simp [hfind]

theorem trackerInv_after_iteration (g : CostGuard) (run_id : String)
    (iteration_idx : Nat) (usage : IterationUsage)
    (h : TrackerInv g.budget_tracker) :
    TrackerInv (g.after_iteration run_id iteration_idx usage).budget_tracker := by
  unfold CostGuard.after_iteration
  cases hr : g.budget_tracker.get_run_state run_id with
  | none => simpa [hr] using h
  | some rs =>
      simp only [hr]
      intro kv hkv
      rcases mem_dictInsert _ _ _ _ hkv with he | hm
      · rw [he]
        have hrs : rs.costInvariant :=
          h (run_id, rs) (dictGet?_mem _ _ _ hr)
        exact hrs
      · exact h kv hm

theorem trackerInv_after_model_call (g : CostGuard) (run_id : String)
    (usage : ModelUsage) (h : TrackerInv g.budget_tracker) :
    TrackerInv (g.after_model_call run_id usage).budget_tracker := by
  unfold CostGuard.after_model_call
  exact trackerInv_update_run_cost _ _ _ _ _ _ _ _ h

theorem trackerInv_after_tool_call (g : CostGuard) (run_id tool_name : String)
    (usage : ToolUsage) (h : TrackerInv g.budget_tracker) :
    TrackerInv (g.after_tool_call run_id tool_name usage).budget_tracker := by
  unfold CostGuard.after_tool_call
  exact trackerInv_update_run_cost _ _ _ _ _ _ _ _ h

theorem trackerInv_applyEvent (g : CostGuard) (e : HookEvent)
    (h : TrackerInv g.budget_tracker) :
    TrackerInv (g.applyEvent e).budget_tracker := by
  cases e with
  | runStart t s w r md now => exact trackerInv_on_run_start g t s w r md now h
  | runEnd r status => exact trackerInv_on_run_end g r status h
  | beforeIteration r idx now =>
      exact trackerInv_of_run_states_eq _ _
        (before_iteration_run_states g r idx now) h
  | afterIteration r idx usage => exact trackerInv_after_iteration g r idx usage h
  | beforeModelCall r m st est now =>
      exact trackerInv_of_run_states_eq _ _
        (before_model_call_run_states g r m st est now) h
  | afterModelCall r usage => exact trackerInv_after_model_call g r usage h
  | beforeToolCall r t =>
      exact trackerInv_of_run_states_eq _ _ (before_tool_call_run_states g r t) h
  | afterToolCall r t usage => exact trackerInv_after_tool_call g r t usage h

theorem trackerInv_applyEvents (events : List HookEvent) :
    ∀ (g : CostGuard), TrackerInv g.budget_tracker →
    TrackerInv (g.applyEvents events).budget_tracker := by
  induction events with
  | nil => intro g h; exact h
  | cons e rest ih =>
      intro g h
      exact ih _ (trackerInv_applyEvent g e h)

/-- C1: starting from any guard whose tracked runs satisfy the ledger
invariant (in particular a fresh one), after any sequence of lifecycle-hook
invocations every live run's `total_cost` equals the sum of its per-model
costs plus the sum of its per-tool costs — the invariant holds at every
observable point. -/
theorem C1_cost_ledger_invariant (g0 : CostGuard) (events : List HookEvent)
    (hinv : TrackerInv g0.budget_tracker) (run_id : String) (rs : RunState)
    (hlk : dictGet? (g0.applyEvents events).budget_tracker.run_states run_id
      = some rs) :
    rs.total_cost = sumVals rs.model_costs + sumVals rs.tool_costs :=
  trackerInv_applyEvents events g0 hinv (run_id, rs) (dictGet?_mem _ _ _ hlk)

/-- Witness for C1: a run admitted and charged by a model call and a tool
call on the empty guard satisfies the ledger equation. -/
theorem C1_cost_ledger_invariant_witness :
    dictGet? (exEmptyGuard.applyEvents
        [HookEvent.runStart "t1" "s1" "w1" "r1" [] dtNow,
         HookEvent.afterModelCall "r1" exCostUsage]).budget_tracker.run_states
        "r1"
      = some ((RunState.init
          { tenant_id := "t1", strand_id := "s1", workflow_id := "w1",
            run_id := "r1", metadata := [], started_at := dtNow }).add_model_cost
          "gpt-4o" 5 1000 500)
    ∧ ((RunState.init
          { tenant_id := "t1", strand_id := "s1", workflow_id := "w1",
            run_id := "r1", metadata := [], started_at := dtNow }).add_model_cost
          "gpt-4o" 5 1000 500).total_cost
        = sumVals ((RunState.init
            { tenant_id := "t1", strand_id := "s1", workflow_id := "w1",
              run_id := "r1", metadata := [], started_at := dtNow }).add_model_cost
            "gpt-4o" 5 1000 500).model_costs
          + sumVals ((RunState.init
            { tenant_id := "t1", strand_id := "s1", workflow_id := "w1",
              run_id := "r1", metadata := [], started_at := dtNow }).add_model_cost
            "gpt-4o" 5 1000 500).tool_costs := by
  have hlk : dictGet? (exEmptyGuard.applyEvents
      [HookEvent.runStart "t1" "s1" "w1" "r1" [] dtNow,
       HookEvent.afterModelCall "r1" exCostUsage]).budget_tracker.run_states "r1"
      = some ((RunState.init
          { tenant_id := "t1", strand_id := "s1", workflow_id := "w1",
            run_id := "r1", metadata := [], started_at := dtNow }).add_model_cost
          "gpt-4o" 5 1000 500) := by
    norm_num +decide [CostGuard.applyEvents, CostGuard.applyEvent,
      CostGuard.on_run_start, CostGuard.after_model_call, exEmptyGuard,
      PolicyStore.refresh, sortDescBy, PolicyStore.get_budgets_for_context,
      BudgetTracker.check_budget_limits, BudgetTracker.register_run,
      BudgetTracker.registerStep, BudgetTracker.init,
      BudgetTracker.update_run_cost, dictGet?, dictInsert, exCostUsage, strTruthy,
      RunState.init, List.filter, List.find?, AdmissionDecision.mkAdmit,
      CostGuard.admitScanStep, BudgetTracker.get_run_state]
  exact ⟨hlk, C1_cost_ledger_invariant exEmptyGuard
    [HookEvent.runStart "t1" "s1" "w1" "r1" [] dtNow,
     HookEvent.afterModelCall "r1" exCostUsage]
    (fun kv hkv => by simp [exEmptyGuard, BudgetTracker.init] at hkv)
    "r1" _ hlk⟩
